import Mathlib

/-!
Shallow embedding of the internship-tracker backend (src/server.js), an Express
HTTP layer over a Supabase data store and object store.  Request bodies and
table rows are modelled as association lists of JSON-like values; every route
handler of the source is translated into a Lean function from the database
state (plus the request input, the server-assigned id / current timestamp, and
the outcome of each backend call it issues) to the HTTP response, the new
database state, and the trace of backend calls it issued.

A backend call outcome is injected as an argument of type Option SbErr: none
means the call reached the data store and its deterministic result (computed
from the modelled state) is returned; some err means the data store or object
store surfaced the failure err for that call, matching the resolved-error
contract of the supabase client (a failed call resolves with an error object,
it does not throw).
-/

namespace Tracker

/-- JSON-like values appearing in request bodies and table rows. -/
inductive Value where
  | vnull
  | vbool (b : Bool)
  | vnum (n : Int)
  | vstr (s : String)
deriving DecidableEq

/-- JavaScript truthiness of a value: null, false, 0 and the empty string are
falsy, everything else is truthy. -/
def truthy : Value → Bool
  | .vnull => false
  | .vbool b => b
  | .vnum n => n != 0
  | .vstr s => s != ""

/-- Truthiness of a possibly absent value: an absent field (undefined) is falsy. -/
def truthyOpt : Option Value → Bool
  | none => false
  | some v => truthy v

/-- Truthiness of a possibly absent query-string parameter. -/
def queryTruthy : Option String → Bool
  | none => false
  | some s => s != ""

/-- JavaScript defaulting idiom x || d: the supplied value when truthy,
otherwise the default. -/
def jsOr (x : Option Value) (d : Value) : Value :=
  match x with
  | some v => if truthy v then v else d
  | none => d

/-- A table row or request body: an association list from field names to values. -/
abbrev Row : Type := List (String × Value)

/-- Field lookup in a row (first occurrence). -/
def getField : Row → String → Option Value
  | [], _ => none
  | (k, v) :: rest, key => if k = key then some v else getField rest key

/-- Set a field of a row: replace the first occurrence of the key, or append
the binding when the key is absent. -/
def setField : Row → String → Value → Row
  | [], k, v => [(k, v)]
  | (k2, v2) :: rest, k, v =>
    if k2 = k then (k, v) :: rest else (k2, v2) :: setField rest k v

/-- Apply a caller-supplied partial field set to a row, in order. -/
def applyUpdates (r : Row) (updates : Row) : Row :=
  updates.foldl (fun acc kv => setField acc kv.1 kv.2) r

/-- The value of the destructured required field inside a validated branch
(the validation guard guarantees the field is present). -/
def reqField (body : Row) (k : String) : Value :=
  (getField body k).getD .vnull

/-- An optional field passed through verbatim to an insert payload: a binding
with value undefined is dropped from the serialized payload, so an absent
field contributes nothing. -/
def optField (body : Row) (k : String) : Row :=
  match getField body k with
  | some v => [(k, v)]
  | none => []

/-- An error object surfaced by the data store or object store: a PostgREST
code and a human-readable message. -/
structure SbErr where
  code : String
  message : String
deriving DecidableEq

/-- The PostgREST error returned by a single-row request that matched zero or
more than one row. -/
def pgrst116 : SbErr :=
  ⟨"PGRST116", "JSON object requested, multiple (or no) rows returned"⟩

/-- The object-store error surfaced when uploading to an existing path with
overwrite disallowed. -/
def duplicateErr : SbErr :=
  ⟨"Duplicate", "The resource already exists"⟩

/-- Result of a single-row (.single()) read over the matching rows: the row
when exactly one matches, the PGRST116 error otherwise. -/
def singleRows (rows : List Row) : Except SbErr Row :=
  match rows with
  | [r] => .ok r
  | _ => .error pgrst116

/-- Response payload in the uniform envelope: null, a single object, or a list. -/
inductive Payload where
  | pnull
  | row (r : Row)
  | rows (rs : List Row)
deriving DecidableEq

/-- Extract the object carried by a payload (empty row when the payload is not
an object); used to state field-level facts about response data. -/
def dataRow : Payload → Row
  | .row r => r
  | _ => []

/-- An HTTP response in the uniform envelope of the service. -/
structure Response where
  status : Nat
  success : Bool
  data : Payload
  error : Option String
deriving DecidableEq

/-- A 200 response with success true, populated data and a null error. -/
def ok (p : Payload) : Response := ⟨200, true, p, none⟩

/-- A 400 validation-failure response: success false, null data, the message. -/
def fail400 (msg : String) : Response := ⟨400, false, .pnull, some msg⟩

/-- A 500 backend-failure response: success false, null data, the backend
message passed through verbatim. -/
def fail500 (msg : String) : Response := ⟨500, false, .pnull, some msg⟩

/-- A backend call issued by a handler, as recorded in the call trace. -/
inductive Call where
  | select (table : String)
  | insert (table : String) (payload : Row)
  | update (table : String) (key : String) (val : Value) (updates : Row)
  | delete (table : String) (key : String) (val : Value)
  | upload (bucket : String) (path : String)
deriving DecidableEq

/-- The tables of the backing data store. -/
structure Database where
  todos : List Row := []
  habits : List Row := []
  habit_entries : List Row := []
  daily_logs_piyush : List Row := []
  daily_logs_shruti : List Row := []
  cp_ratings : List Row := []
  contest_logs : List Row := []
  a2z_progress : List Row := []
  blind75 : List Row := []
  courses : List Row := []
  certificates : List Row := []
  resume_sections : List Row := []
  projects : List Row := []
  skills : List Row := []
  case_studies : List Row := []
  guesstimates : List Row := []
  case_competitions : List Row := []
deriving DecidableEq

/-- The object store: the set of (bucket, path) objects currently stored. -/
structure StorageState where
  objects : List (String × String) := []
deriving DecidableEq

/-- Result of a data-store handler: the response, the resulting database
state, and the trace of backend calls issued. -/
structure HResult where
  resp : Response
  db : Database
  calls : List Call
deriving DecidableEq

/-- Result of an upload handler: the response, the resulting object-store
state, and the trace of backend calls issued. -/
structure UResult where
  resp : Response
  storage : StorageState
  calls : List Call
deriving DecidableEq

/-- Rows of a table matching key = val (the .eq filter). -/
def matching (tbl : List Row) (key : String) (val : Value) : List Row :=
  tbl.filter (fun r => getField r key == some val)

/-- Delete the rows of a table matching key = val. -/
def deleteRows (tbl : List Row) (key : String) (val : Value) : List Row :=
  tbl.filter (fun r => !(getField r key == some val))

/-- Update every row of a table matching key = val with the supplied fields. -/
def updateRows (tbl : List Row) (key : String) (val : Value) (updates : Row) : List Row :=
  tbl.map (fun r => if getField r key == some val then applyUpdates r updates else r)

/-- Comparison on values used to model a family-specific ORDER BY. -/
def vleBool : Value → Value → Bool
  | .vnull, _ => true
  | _, .vnull => false
  | .vbool a, .vbool b => !a || b
  | .vbool _, _ => true
  | _, .vbool _ => false
  | .vnum a, .vnum b => a ≤ b
  | .vnum _, _ => true
  | _, .vnum _ => false
  | .vstr a, .vstr b => !(b < a)

/-- Insert a row into a list sorted by the given comparison. -/
def insertSorted (le : Row → Row → Bool) (r : Row) : List Row → List Row
  | [] => [r]
  | x :: xs => if le r x then r :: x :: xs else x :: insertSorted le r xs

/-- Order the rows of a result set by a field, ascending or descending. -/
def orderRows (tbl : List Row) (key : String) (asc : Bool) : List Row :=
  tbl.foldr
    (fun r acc =>
      insertSorted
        (fun a b =>
          let va := (getField a key).getD .vnull
          let vb := (getField b key).getD .vnull
          if asc then vleBool va vb else vleBool vb va)
        r acc)
    []

/-- A list select call: the trace entry and either the backend failure or the
result set. -/
def listCall (tblName : String) (rows : List Row) (e : Option SbErr) :
    Response × List Call :=
  match e with
  | some err => (fail500 err.message, [.select tblName])
  | none => (ok (.rows rows), [.select tblName])

/-- An insert returning the created row (insert ... select().single()): the
data store assigns the id and the creation timestamp. -/
def createOne (tbl : List Row) (tblName : String) (fields : Row) (newId : Value)
    (now : String) (e : Option SbErr) : Response × List Row × List Call :=
  let calls := [Call.insert tblName fields]
  match e with
  | some err => (fail500 err.message, tbl, calls)
  | none =>
    let row := fields ++ [("id", newId), ("created_at", Value.vstr now)]
    (ok (.row row), tbl ++ [row], calls)

/-- An update by key returning the updated row (update ... eq ... select()
.single()): every matching row is updated; the single-row read then yields
the updated row when exactly one row matched and PGRST116 otherwise. -/
def updateByKey (tbl : List Row) (tblName key : String) (val : Value) (updates : Row)
    (e : Option SbErr) : Response × List Row × List Call :=
  let calls := [Call.update tblName key val updates]
  match e with
  | some err => (fail500 err.message, tbl, calls)
  | none =>
    let newTbl := updateRows tbl key val updates
    match matching tbl key val with
    | [r] => (ok (.row (applyUpdates r updates)), newTbl, calls)
    | _ => (fail500 pgrst116.message, newTbl, calls)

/-- A delete by key returning the supplied id: the affected-row count is not
surfaced, so the response is the same whether or not a row matched. -/
def deleteByKey (tbl : List Row) (tblName key : String) (val : Value)
    (e : Option SbErr) : Response × List Row × List Call :=
  let calls := [Call.delete tblName key val]
  match e with
  | some err => (fail500 err.message, tbl, calls)
  | none => (ok (.row [("id", val)]), deleteRows tbl key val, calls)

/-- A single-row natural-key read that translates the PGRST116 no-row code
into success with a null payload and propagates every other failure. -/
def getSingleByKey (tbl : List Row) (tblName key : String) (val : Value)
    (e : Option SbErr) : Response × List Call :=
  let calls := [Call.select tblName]
  let result : Except SbErr Row :=
    match e with
    | some err => .error err
    | none => singleRows (matching tbl key val)
  match result with
  | .ok r => (ok (.row r), calls)
  | .error err =>
    if err.code = "PGRST116" then (ok .pnull, calls) else (fail500 err.message, calls)

/-! ### Route handlers: todos -/

/-- GET /todos?profile=... : requires the profile query parameter, then lists
the todos of that profile ordered by created_at descending. -/
def getTodos (db : Database) (profile? : Option String) (e : Option SbErr) : HResult :=
  if !queryTruthy profile? then
    ⟨fail400 "Profile parameter is required", db, []⟩
  else
    let rows := orderRows (matching db.todos "profile" (.vstr (profile?.getD ""))) "created_at" false
    let (resp, calls) := listCall "todos" rows e
    ⟨resp, db, calls⟩

/-- POST /todos : requires profile and content, inserts them and returns the
created row. -/
def postTodos (db : Database) (body : Row) (newId : Value) (now : String)
    (e : Option SbErr) : HResult :=
  if !truthyOpt (getField body "profile") || !truthyOpt (getField body "content") then
    ⟨fail400 "Profile and content are required", db, []⟩
  else
    let fields : Row := [("profile", reqField body "profile"), ("content", reqField body "content")]
    let (resp, tbl, calls) := createOne db.todos "todos" fields newId now e
    ⟨resp, { db with todos := tbl }, calls⟩

/-- PUT /todos/:id : forwards the request body verbatim as a partial update of
the row with the given id and returns the updated row. -/
def putTodos (db : Database) (idv : Value) (updates : Row) (e : Option SbErr) : HResult :=
  let (resp, tbl, calls) := updateByKey db.todos "todos" "id" idv updates e
  ⟨resp, { db with todos := tbl }, calls⟩

/-- DELETE /todos/:id : deletes by id and returns the id. -/
def deleteTodos (db : Database) (idv : Value) (e : Option SbErr) : HResult :=
  let (resp, tbl, calls) := deleteByKey db.todos "todos" "id" idv e
  ⟨resp, { db with todos := tbl }, calls⟩

/-! ### Route handlers: habits and habit entries -/

/-- GET /habits?profile=... : requires profile, lists habits ordered by
sort_order ascending. -/
def getHabits (db : Database) (profile? : Option String) (e : Option SbErr) : HResult :=
  if !queryTruthy profile? then
    ⟨fail400 "Profile parameter is required", db, []⟩
  else
    let rows := orderRows (matching db.habits "profile" (.vstr (profile?.getD ""))) "sort_order" true
    let (resp, calls) := listCall "habits" rows e
    ⟨resp, db, calls⟩

/-- POST /habits : requires profile and name; sort_order defaults to 0 via
the || idiom. -/
def postHabits (db : Database) (body : Row) (newId : Value) (now : String)
    (e : Option SbErr) : HResult :=
  if !truthyOpt (getField body "profile") || !truthyOpt (getField body "name") then
    ⟨fail400 "Profile and name are required", db, []⟩
  else
    let fields : Row :=
      [("profile", reqField body "profile"), ("name", reqField body "name"),
       ("sort_order", jsOr (getField body "sort_order") (.vnum 0))]
    let (resp, tbl, calls) := createOne db.habits "habits" fields newId now e
    ⟨resp, { db with habits := tbl }, calls⟩

/-- PUT /habits/:id : verbatim partial update by id. -/
def putHabits (db : Database) (idv : Value) (updates : Row) (e : Option SbErr) : HResult :=
  let (resp, tbl, calls) := updateByKey db.habits "habits" "id" idv updates e
  ⟨resp, { db with habits := tbl }, calls⟩

/-- DELETE /habits/:id : first deletes every habit_entries row with this
habit_id (the result of that call is not checked), then deletes the habit
row, and returns the id. -/
def deleteHabits (db : Database) (idv : Value) (e1 e2 : Option SbErr) : HResult :=
  let db1 :=
    match e1 with
    | some _ => db
    | none => { db with habit_entries := deleteRows db.habit_entries "habit_id" idv }
  let calls := [Call.delete "habit_entries" "habit_id" idv, Call.delete "habits" "id" idv]
  match e2 with
  | some err => ⟨fail500 err.message, db1, calls⟩
  | none =>
    ⟨ok (.row [("id", idv)]), { db1 with habits := deleteRows db1.habits "id" idv }, calls⟩

/-- Keys of the habits of a profile, as selected by the first call of
GET /habit-entries. -/
def habitIdsOf (db : Database) (profile : String) : List Value :=
  (matching db.habits "profile" (.vstr profile)).map (fun r => (getField r "id").getD .vnull)

/-- GET /habit-entries?profile=...&from=...&to=... : requires profile; first
selects the habits of the profile, answers an empty list when there are none,
otherwise selects the entries of those habits restricted to the optional date
range, ordered by date descending. -/
def getHabitEntries (db : Database) (profile? from? to? : Option String)
    (e1 e2 : Option SbErr) : HResult :=
  if !queryTruthy profile? then
    ⟨fail400 "Profile parameter is required", db, []⟩
  else
    let c1 := [Call.select "habits"]
    match e1 with
    | some err => ⟨fail500 err.message, db, c1⟩
    | none =>
      let habitIds := habitIdsOf db (profile?.getD "")
      if habitIds.isEmpty then
        ⟨ok (.rows []), db, c1⟩
      else
        let calls := c1 ++ [Call.select "habit_entries"]
        match e2 with
        | some err => ⟨fail500 err.message, db, calls⟩
        | none =>
          let rows := db.habit_entries.filter
            (fun r => habitIds.contains ((getField r "habit_id").getD .vnull))
          let rows :=
            match from? with
            | some f =>
              rows.filter (fun r =>
                match getField r "date" with
                | some (.vstr d) => !(d < f)
                | _ => false)
            | none => rows
          let rows :=
            match to? with
            | some t =>
              rows.filter (fun r =>
                match getField r "date" with
                | some (.vstr d) => !(t < d)
                | _ => false)
            | none => rows
          ⟨ok (.rows (orderRows rows "date" false)), db, calls⟩

/-- POST /habit-entries : requires habit_id and date; completed defaults to
false via the || idiom. -/
def postHabitEntries (db : Database) (body : Row) (newId : Value) (now : String)
    (e : Option SbErr) : HResult :=
  if !truthyOpt (getField body "habit_id") || !truthyOpt (getField body "date") then
    ⟨fail400 "habit_id and date are required", db, []⟩
  else
    let fields : Row :=
      [("habit_id", reqField body "habit_id"), ("date", reqField body "date"),
       ("completed", jsOr (getField body "completed") (.vbool false))]
    let (resp, tbl, calls) := createOne db.habit_entries "habit_entries" fields newId now e
    ⟨resp, { db with habit_entries := tbl }, calls⟩

/-- PUT /habit-entries/:id : verbatim partial update by id. -/
def putHabitEntries (db : Database) (idv : Value) (updates : Row) (e : Option SbErr) : HResult :=
  let (resp, tbl, calls) := updateByKey db.habit_entries "habit_entries" "id" idv updates e
  ⟨resp, { db with habit_entries := tbl }, calls⟩

/-! ### Route handlers: daily logs (piyush) -/

/-- GET /daily-logs/piyush : lists all rows ordered by date descending. -/
def getDailyLogsPiyush (db : Database) (e : Option SbErr) : HResult :=
  let (resp, calls) := listCall "daily_logs_piyush" (orderRows db.daily_logs_piyush "date" false) e
  ⟨resp, db, calls⟩

/-- GET /daily-logs/piyush/:date : single-row natural-key lookup; the
PGRST116 no-row code becomes success with null data. -/
def getDailyLogsPiyushByDate (db : Database) (date : String) (e : Option SbErr) : HResult :=
  let (resp, calls) := getSingleByKey db.daily_logs_piyush "daily_logs_piyush" "date" (.vstr date) e
  ⟨resp, db, calls⟩

/-- POST /daily-logs/piyush : requires date; dsa_questions_solved defaults to
0 via the || idiom; notes is passed through verbatim. -/
def postDailyLogsPiyush (db : Database) (body : Row) (newId : Value) (now : String)
    (e : Option SbErr) : HResult :=
  if !truthyOpt (getField body "date") then
    ⟨fail400 "Date is required", db, []⟩
  else
    let fields : Row :=
      [("date", reqField body "date"),
       ("dsa_questions_solved", jsOr (getField body "dsa_questions_solved") (.vnum 0))] ++
      optField body "notes"
    let (resp, tbl, calls) := createOne db.daily_logs_piyush "daily_logs_piyush" fields newId now e
    ⟨resp, { db with daily_logs_piyush := tbl }, calls⟩

/-- PUT /daily-logs/piyush/:id : verbatim partial update by id. -/
def putDailyLogsPiyush (db : Database) (idv : Value) (updates : Row) (e : Option SbErr) : HResult :=
  let (resp, tbl, calls) := updateByKey db.daily_logs_piyush "daily_logs_piyush" "id" idv updates e
  ⟨resp, { db with daily_logs_piyush := tbl }, calls⟩

/-- DELETE /daily-logs/piyush/:id : deletes by id and returns the id. -/
def deleteDailyLogsPiyush (db : Database) (idv : Value) (e : Option SbErr) : HResult :=
  let (resp, tbl, calls) := deleteByKey db.daily_logs_piyush "daily_logs_piyush" "id" idv e
  ⟨resp, { db with daily_logs_piyush := tbl }, calls⟩

/-! ### Route handlers: daily logs (shruti) -/

/-- GET /daily-logs/shruti : lists all rows ordered by date descending. -/
def getDailyLogsShruti (db : Database) (e : Option SbErr) : HResult :=
  let (resp, calls) := listCall "daily_logs_shruti" (orderRows db.daily_logs_shruti "date" false) e
  ⟨resp, db, calls⟩

/-- GET /daily-logs/shruti/:date : single-row natural-key lookup; the
PGRST116 no-row code becomes success with null data. -/
def getDailyLogsShrutiByDate (db : Database) (date : String) (e : Option SbErr) : HResult :=
  let (resp, calls) := getSingleByKey db.daily_logs_shruti "daily_logs_shruti" "date" (.vstr date) e
  ⟨resp, db, calls⟩

/-- POST /daily-logs/shruti : requires date; the two counters default to 0
via the || idiom; notes is passed through verbatim. -/
def postDailyLogsShruti (db : Database) (body : Row) (newId : Value) (now : String)
    (e : Option SbErr) : HResult :=
  if !truthyOpt (getField body "date") then
    ⟨fail400 "Date is required", db, []⟩
  else
    let fields : Row :=
      [("date", reqField body "date"),
       ("python_questions_solved", jsOr (getField body "python_questions_solved") (.vnum 0)),
       ("sql_questions_solved", jsOr (getField body "sql_questions_solved") (.vnum 0))] ++
      optField body "notes"
    let (resp, tbl, calls) := createOne db.daily_logs_shruti "daily_logs_shruti" fields newId now e
    ⟨resp, { db with daily_logs_shruti := tbl }, calls⟩

/-- PUT /daily-logs/shruti/:id : verbatim partial update by id. -/
def putDailyLogsShruti (db : Database) (idv : Value) (updates : Row) (e : Option SbErr) : HResult :=
  let (resp, tbl, calls) := updateByKey db.daily_logs_shruti "daily_logs_shruti" "id" idv updates e
  ⟨resp, { db with daily_logs_shruti := tbl }, calls⟩

/-- DELETE /daily-logs/shruti/:id : deletes by id and returns the id. -/
def deleteDailyLogsShruti (db : Database) (idv : Value) (e : Option SbErr) : HResult :=
  let (resp, tbl, calls) := deleteByKey db.daily_logs_shruti "daily_logs_shruti" "id" idv e
  ⟨resp, { db with daily_logs_shruti := tbl }, calls⟩

/-! ### Route handlers: cp ratings (read-then-branch upsert by platform) -/

/-- GET /cp-ratings : lists all rows ordered by platform ascending. -/
def getCpRatings (db : Database) (e : Option SbErr) : HResult :=
  let (resp, calls) := listCall "cp_ratings" (orderRows db.cp_ratings "platform" true) e
  ⟨resp, db, calls⟩

/-- PUT /cp-ratings/:platform : rejects a body without a rating field, then
reads the row of the platform with a single-row select whose error result is
discarded (existing is null both when no row matched and when the call
failed); when a row was found, updates rating and stamps updated_at on every
row of the platform; otherwise inserts a new platform, rating row. -/
def putCpRatings (db : Database) (platform : String) (body : Row) (newId : Value)
    (now : String) (eSel eUpd eIns : Option SbErr) : HResult :=
  match getField body "rating" with
  | none => ⟨fail400 "Rating is required", db, []⟩
  | some rating =>
    let selCalls := [Call.select "cp_ratings"]
    let existing : Option Row :=
      match eSel with
      | some _ => none
      | none =>
        match matching db.cp_ratings "platform" (.vstr platform) with
        | [r] => some r
        | _ => none
    match existing with
    | some _ =>
      let updates : Row := [("rating", rating), ("updated_at", .vstr now)]
      let (resp, tbl, calls) := updateByKey db.cp_ratings "cp_ratings" "platform" (.vstr platform) updates eUpd
      ⟨resp, { db with cp_ratings := tbl }, selCalls ++ calls⟩
    | none =>
      let fields : Row := [("platform", .vstr platform), ("rating", rating)]
      let (resp, tbl, calls) := createOne db.cp_ratings "cp_ratings" fields newId now eIns
      ⟨resp, { db with cp_ratings := tbl }, selCalls ++ calls⟩

/-! ### Route handlers: contest logs -/

/-- GET /contest-logs : lists all rows ordered by date descending. -/
def getContestLogs (db : Database) (e : Option SbErr) : HResult :=
  let (resp, calls) := listCall "contest_logs" (orderRows db.contest_logs "date" false) e
  ⟨resp, db, calls⟩

/-- POST /contest-logs : requires platform, contest_name and date; the two
counters default to 0 via the || idiom; notes is passed through verbatim. -/
def postContestLogs (db : Database) (body : Row) (newId : Value) (now : String)
    (e : Option SbErr) : HResult :=
  if !truthyOpt (getField body "platform") || !truthyOpt (getField body "contest_name") ||
      !truthyOpt (getField body "date") then
    ⟨fail400 "Platform, contest_name, and date are required", db, []⟩
  else
    let fields : Row :=
      [("platform", reqField body "platform"), ("contest_name", reqField body "contest_name"),
       ("date", reqField body "date"),
       ("problems_solved", jsOr (getField body "problems_solved") (.vnum 0)),
       ("total_problems", jsOr (getField body "total_problems") (.vnum 0))] ++
      optField body "notes"
    let (resp, tbl, calls) := createOne db.contest_logs "contest_logs" fields newId now e
    ⟨resp, { db with contest_logs := tbl }, calls⟩

/-- PUT /contest-logs/:id : verbatim partial update by id. -/
def putContestLogs (db : Database) (idv : Value) (updates : Row) (e : Option SbErr) : HResult :=
  let (resp, tbl, calls) := updateByKey db.contest_logs "contest_logs" "id" idv updates e
  ⟨resp, { db with contest_logs := tbl }, calls⟩

/-- DELETE /contest-logs/:id : deletes by id and returns the id. -/
def deleteContestLogs (db : Database) (idv : Value) (e : Option SbErr) : HResult :=
  let (resp, tbl, calls) := deleteByKey db.contest_logs "contest_logs" "id" idv e
  ⟨resp, { db with contest_logs := tbl }, calls⟩

/-! ### Route handlers: a2z progress (singleton) -/

/-- The six zeroed difficulty counters inserted when the singleton row is
absent. -/
def a2zDefaults : Row :=
  [("easy_total", .vnum 0), ("easy_solved", .vnum 0), ("medium_total", .vnum 0),
   ("medium_solved", .vnum 0), ("hard_total", .vnum 0), ("hard_solved", .vnum 0)]

/-- GET /a2z-progress : single-row read of the whole table; on the PGRST116
no-row code it inserts a row with all six counters zero and returns it; every
other failure propagates. -/
def getA2zProgress (db : Database) (newId : Value) (now : String)
    (eSel eIns : Option SbErr) : HResult :=
  let selCalls := [Call.select "a2z_progress"]
  let result : Except SbErr Row :=
    match eSel with
    | some err => .error err
    | none => singleRows db.a2z_progress
  match result with
  | .ok r => ⟨ok (.row r), db, selCalls⟩
  | .error err =>
    if err.code = "PGRST116" then
      let (resp, tbl, calls) := createOne db.a2z_progress "a2z_progress" a2zDefaults newId now eIns
      ⟨resp, { db with a2z_progress := tbl }, selCalls ++ calls⟩
    else
      ⟨fail500 err.message, db, selCalls⟩

/-- PUT /a2z-progress : reads the single row with an error-discarding select;
when absent, inserts the request body verbatim; when present, updates the row
by its id with the request body verbatim. -/
def putA2zProgress (db : Database) (updates : Row) (newId : Value) (now : String)
    (eSel eIns eUpd : Option SbErr) : HResult :=
  let selCalls := [Call.select "a2z_progress"]
  let existing : Option Row :=
    match eSel with
    | some _ => none
    | none =>
      match db.a2z_progress with
      | [r] => some r
      | _ => none
  match existing with
  | none =>
    let (resp, tbl, calls) := createOne db.a2z_progress "a2z_progress" updates newId now eIns
    ⟨resp, { db with a2z_progress := tbl }, selCalls ++ calls⟩
  | some ex =>
    let idv := (getField ex "id").getD .vnull
    let (resp, tbl, calls) := updateByKey db.a2z_progress "a2z_progress" "id" idv updates eUpd
    ⟨resp, { db with a2z_progress := tbl }, selCalls ++ calls⟩

/-! ### Route handlers: blind75 -/

/-- GET /blind75 : lists all rows ordered by question_name ascending. -/
def getBlind75 (db : Database) (e : Option SbErr) : HResult :=
  let (resp, calls) := listCall "blind75" (orderRows db.blind75 "question_name" true) e
  ⟨resp, db, calls⟩

/-- POST /blind75 : requires question_name; completed defaults to false via
the || idiom; solution_link is passed through verbatim. -/
def postBlind75 (db : Database) (body : Row) (newId : Value) (now : String)
    (e : Option SbErr) : HResult :=
  if !truthyOpt (getField body "question_name") then
    ⟨fail400 "Question name is required", db, []⟩
  else
    let fields : Row :=
      [("question_name", reqField body "question_name")] ++ optField body "solution_link" ++
      [("completed", jsOr (getField body "completed") (.vbool false))]
    let (resp, tbl, calls) := createOne db.blind75 "blind75" fields newId now e
    ⟨resp, { db with blind75 := tbl }, calls⟩

/-- PUT /blind75/:id : verbatim partial update by id. -/
def putBlind75 (db : Database) (idv : Value) (updates : Row) (e : Option SbErr) : HResult :=
  let (resp, tbl, calls) := updateByKey db.blind75 "blind75" "id" idv updates e
  ⟨resp, { db with blind75 := tbl }, calls⟩

/-- DELETE /blind75/:id : deletes by id and returns the id. -/
def deleteBlind75 (db : Database) (idv : Value) (e : Option SbErr) : HResult :=
  let (resp, tbl, calls) := deleteByKey db.blind75 "blind75" "id" idv e
  ⟨resp, { db with blind75 := tbl }, calls⟩

/-! ### Route handlers: courses -/

/-- GET /courses?profile=... : requires profile, lists courses ordered by
course_name ascending. -/
def getCourses (db : Database) (profile? : Option String) (e : Option SbErr) : HResult :=
  if !queryTruthy profile? then
    ⟨fail400 "Profile parameter is required", db, []⟩
  else
    let rows := orderRows (matching db.courses "profile" (.vstr (profile?.getD ""))) "course_name" true
    let (resp, calls) := listCall "courses" rows e
    ⟨resp, db, calls⟩

/-- POST /courses : requires profile, course_name and platform; total_content
defaults to 100 and completed_content to 0 via the || idiom. -/
def postCourses (db : Database) (body : Row) (newId : Value) (now : String)
    (e : Option SbErr) : HResult :=
  if !truthyOpt (getField body "profile") || !truthyOpt (getField body "course_name") ||
      !truthyOpt (getField body "platform") then
    ⟨fail400 "Profile, course_name, and platform are required", db, []⟩
  else
    let fields : Row :=
      [("profile", reqField body "profile"), ("course_name", reqField body "course_name"),
       ("platform", reqField body "platform"),
       ("total_content", jsOr (getField body "total_content") (.vnum 100)),
       ("completed_content", jsOr (getField body "completed_content") (.vnum 0))]
    let (resp, tbl, calls) := createOne db.courses "courses" fields newId now e
    ⟨resp, { db with courses := tbl }, calls⟩

/-- PUT /courses/:id : verbatim partial update by id. -/
def putCourses (db : Database) (idv : Value) (updates : Row) (e : Option SbErr) : HResult :=
  let (resp, tbl, calls) := updateByKey db.courses "courses" "id" idv updates e
  ⟨resp, { db with courses := tbl }, calls⟩

/-- DELETE /courses/:id : deletes by id and returns the id. -/
def deleteCourses (db : Database) (idv : Value) (e : Option SbErr) : HResult :=
  let (resp, tbl, calls) := deleteByKey db.courses "courses" "id" idv e
  ⟨resp, { db with courses := tbl }, calls⟩

/-! ### Route handlers: certificates -/

/-- GET /certificates?profile=... : requires profile, lists certificates
ordered by date descending. -/
def getCertificates (db : Database) (profile? : Option String) (e : Option SbErr) : HResult :=
  if !queryTruthy profile? then
    ⟨fail400 "Profile parameter is required", db, []⟩
  else
    let rows := orderRows (matching db.certificates "profile" (.vstr (profile?.getD ""))) "date" false
    let (resp, calls) := listCall "certificates" rows e
    ⟨resp, db, calls⟩

/-- POST /certificates : requires profile, title, issuer and date; file_url is
passed through verbatim. -/
def postCertificates (db : Database) (body : Row) (newId : Value) (now : String)
    (e : Option SbErr) : HResult :=
  if !truthyOpt (getField body "profile") || !truthyOpt (getField body "title") ||
      !truthyOpt (getField body "issuer") || !truthyOpt (getField body "date") then
    ⟨fail400 "Profile, title, issuer, and date are required", db, []⟩
  else
    let fields : Row :=
      [("profile", reqField body "profile"), ("title", reqField body "title"),
       ("issuer", reqField body "issuer"), ("date", reqField body "date")] ++
      optField body "file_url"
    let (resp, tbl, calls) := createOne db.certificates "certificates" fields newId now e
    ⟨resp, { db with certificates := tbl }, calls⟩

/-- DELETE /certificates/:id : deletes by id and returns the id. -/
def deleteCertificates (db : Database) (idv : Value) (e : Option SbErr) : HResult :=
  let (resp, tbl, calls) := deleteByKey db.certificates "certificates" "id" idv e
  ⟨resp, { db with certificates := tbl }, calls⟩

/-! ### Route handlers: resume sections -/

/-- GET /resume-sections : lists all rows ordered by sort_order ascending. -/
def getResumeSections (db : Database) (e : Option SbErr) : HResult :=
  let (resp, calls) := listCall "resume_sections" (orderRows db.resume_sections "sort_order" true) e
  ⟨resp, db, calls⟩

/-- PUT /resume-sections/:id : verbatim partial update by id. -/
def putResumeSections (db : Database) (idv : Value) (updates : Row) (e : Option SbErr) : HResult :=
  let (resp, tbl, calls) := updateByKey db.resume_sections "resume_sections" "id" idv updates e
  ⟨resp, { db with resume_sections := tbl }, calls⟩

/-! ### Route handlers: projects -/

/-- GET /projects?profile=... : requires profile, lists projects ordered by
project_name ascending. -/
def getProjects (db : Database) (profile? : Option String) (e : Option SbErr) : HResult :=
  if !queryTruthy profile? then
    ⟨fail400 "Profile parameter is required", db, []⟩
  else
    let rows := orderRows (matching db.projects "profile" (.vstr (profile?.getD ""))) "project_name" true
    let (resp, calls) := listCall "projects" rows e
    ⟨resp, db, calls⟩

/-- POST /projects : requires profile and project_name; description and notes
are passed through verbatim. -/
def postProjects (db : Database) (body : Row) (newId : Value) (now : String)
    (e : Option SbErr) : HResult :=
  if !truthyOpt (getField body "profile") || !truthyOpt (getField body "project_name") then
    ⟨fail400 "Profile and project_name are required", db, []⟩
  else
    let fields : Row :=
      [("profile", reqField body "profile"), ("project_name", reqField body "project_name")] ++
      optField body "description" ++ optField body "notes"
    let (resp, tbl, calls) := createOne db.projects "projects" fields newId now e
    ⟨resp, { db with projects := tbl }, calls⟩

/-- PUT /projects/:id : verbatim partial update by id. -/
def putProjects (db : Database) (idv : Value) (updates : Row) (e : Option SbErr) : HResult :=
  let (resp, tbl, calls) := updateByKey db.projects "projects" "id" idv updates e
  ⟨resp, { db with projects := tbl }, calls⟩

/-- DELETE /projects/:id : deletes by id and returns the id. -/
def deleteProjects (db : Database) (idv : Value) (e : Option SbErr) : HResult :=
  let (resp, tbl, calls) := deleteByKey db.projects "projects" "id" idv e
  ⟨resp, { db with projects := tbl }, calls⟩

/-! ### Route handlers: skills -/

/-- GET /skills?profile=... : requires profile, lists skills ordered by
skill_name ascending. -/
def getSkills (db : Database) (profile? : Option String) (e : Option SbErr) : HResult :=
  if !queryTruthy profile? then
    ⟨fail400 "Profile parameter is required", db, []⟩
  else
    let rows := orderRows (matching db.skills "profile" (.vstr (profile?.getD ""))) "skill_name" true
    let (resp, calls) := listCall "skills" rows e
    ⟨resp, db, calls⟩

/-- POST /skills : requires profile and skill_name; notes is passed through
verbatim. -/
def postSkills (db : Database) (body : Row) (newId : Value) (now : String)
    (e : Option SbErr) : HResult :=
  if !truthyOpt (getField body "profile") || !truthyOpt (getField body "skill_name") then
    ⟨fail400 "Profile and skill_name are required", db, []⟩
  else
    let fields : Row :=
      [("profile", reqField body "profile"), ("skill_name", reqField body "skill_name")] ++
      optField body "notes"
    let (resp, tbl, calls) := createOne db.skills "skills" fields newId now e
    ⟨resp, { db with skills := tbl }, calls⟩

/-- PUT /skills/:id : verbatim partial update by id. -/
def putSkills (db : Database) (idv : Value) (updates : Row) (e : Option SbErr) : HResult :=
  let (resp, tbl, calls) := updateByKey db.skills "skills" "id" idv updates e
  ⟨resp, { db with skills := tbl }, calls⟩

/-- DELETE /skills/:id : deletes by id and returns the id. -/
def deleteSkills (db : Database) (idv : Value) (e : Option SbErr) : HResult :=
  let (resp, tbl, calls) := deleteByKey db.skills "skills" "id" idv e
  ⟨resp, { db with skills := tbl }, calls⟩

/-! ### Route handlers: case studies -/

/-- GET /case-studies : lists all rows ordered by date descending. -/
def getCaseStudies (db : Database) (e : Option SbErr) : HResult :=
  let (resp, calls) := listCall "case_studies" (orderRows db.case_studies "date" false) e
  ⟨resp, db, calls⟩

/-- POST /case-studies : requires title and date; notes is passed through
verbatim. -/
def postCaseStudies (db : Database) (body : Row) (newId : Value) (now : String)
    (e : Option SbErr) : HResult :=
  if !truthyOpt (getField body "title") || !truthyOpt (getField body "date") then
    ⟨fail400 "Title and date are required", db, []⟩
  else
    let fields : Row :=
      [("title", reqField body "title")] ++ optField body "notes" ++
      [("date", reqField body "date")]
    let (resp, tbl, calls) := createOne db.case_studies "case_studies" fields newId now e
    ⟨resp, { db with case_studies := tbl }, calls⟩

/-- PUT /case-studies/:id : verbatim partial update by id. -/
def putCaseStudies (db : Database) (idv : Value) (updates : Row) (e : Option SbErr) : HResult :=
  let (resp, tbl, calls) := updateByKey db.case_studies "case_studies" "id" idv updates e
  ⟨resp, { db with case_studies := tbl }, calls⟩

/-- DELETE /case-studies/:id : deletes by id and returns the id. -/
def deleteCaseStudies (db : Database) (idv : Value) (e : Option SbErr) : HResult :=
  let (resp, tbl, calls) := deleteByKey db.case_studies "case_studies" "id" idv e
  ⟨resp, { db with case_studies := tbl }, calls⟩

/-! ### Route handlers: guesstimates -/

/-- GET /guesstimates : lists all rows ordered by topic ascending. -/
def getGuesstimates (db : Database) (e : Option SbErr) : HResult :=
  let (resp, calls) := listCall "guesstimates" (orderRows db.guesstimates "topic" true) e
  ⟨resp, db, calls⟩

/-- POST /guesstimates : requires topic; learnings and notes are passed
through verbatim. -/
def postGuesstimates (db : Database) (body : Row) (newId : Value) (now : String)
    (e : Option SbErr) : HResult :=
  if !truthyOpt (getField body "topic") then
    ⟨fail400 "Topic is required", db, []⟩
  else
    let fields : Row :=
      [("topic", reqField body "topic")] ++ optField body "learnings" ++ optField body "notes"
    let (resp, tbl, calls) := createOne db.guesstimates "guesstimates" fields newId now e
    ⟨resp, { db with guesstimates := tbl }, calls⟩

/-- PUT /guesstimates/:id : verbatim partial update by id. -/
def putGuesstimates (db : Database) (idv : Value) (updates : Row) (e : Option SbErr) : HResult :=
  let (resp, tbl, calls) := updateByKey db.guesstimates "guesstimates" "id" idv updates e
  ⟨resp, { db with guesstimates := tbl }, calls⟩

/-- DELETE /guesstimates/:id : deletes by id and returns the id. -/
def deleteGuesstimates (db : Database) (idv : Value) (e : Option SbErr) : HResult :=
  let (resp, tbl, calls) := deleteByKey db.guesstimates "guesstimates" "id" idv e
  ⟨resp, { db with guesstimates := tbl }, calls⟩

/-! ### Route handlers: case competitions -/

/-- GET /case-competitions : lists all rows ordered by competition_name
ascending. -/
def getCaseCompetitions (db : Database) (e : Option SbErr) : HResult :=
  let (resp, calls) := listCall "case_competitions" (orderRows db.case_competitions "competition_name" true) e
  ⟨resp, db, calls⟩

/-- POST /case-competitions : requires competition_name; notes and
document_url are passed through verbatim. -/
def postCaseCompetitions (db : Database) (body : Row) (newId : Value) (now : String)
    (e : Option SbErr) : HResult :=
  if !truthyOpt (getField body "competition_name") then
    ⟨fail400 "Competition name is required", db, []⟩
  else
    let fields : Row :=
      [("competition_name", reqField body "competition_name")] ++
      optField body "notes" ++ optField body "document_url"
    let (resp, tbl, calls) := createOne db.case_competitions "case_competitions" fields newId now e
    ⟨resp, { db with case_competitions := tbl }, calls⟩

/-- PUT /case-competitions/:id : verbatim partial update by id. -/
def putCaseCompetitions (db : Database) (idv : Value) (updates : Row) (e : Option SbErr) : HResult :=
  let (resp, tbl, calls) := updateByKey db.case_competitions "case_competitions" "id" idv updates e
  ⟨resp, { db with case_competitions := tbl }, calls⟩

/-- DELETE /case-competitions/:id : deletes by id and returns the id. -/
def deleteCaseCompetitions (db : Database) (idv : Value) (e : Option SbErr) : HResult :=
  let (resp, tbl, calls) := deleteByKey db.case_competitions "case_competitions" "id" idv e
  ⟨resp, { db with case_competitions := tbl }, calls⟩

/-! ### Upload handlers -/

/-- Little-endian decimal digits of n, computed with explicit fuel so that
the definition reduces by evaluation; with fuel at least n it agrees with
the mathematical digit expansion. -/
def decDigitsAux (fuel n : Nat) : List Nat :=
  match fuel with
  | 0 => []
  | fuel2 + 1 => if n = 0 then [] else n % 10 :: decDigitsAux fuel2 (n / 10)

/-- Decimal rendering of the millisecond timestamp spliced into the storage
path by the template literal. -/
def decStr (n : Nat) : String :=
  if n = 0 then "0" else ((decDigitsAux n n).reverse.map Nat.digitChar).asString

/-- Stringification of a body value inside a template literal. -/
def vToString : Value → String
  | .vnull => "null"
  | .vbool b => if b then "true" else "false"
  | .vnum n => toString n
  | .vstr s => s

/-- Whether the object store already holds an object at the path. -/
def storageHas (st : StorageState) (bucket path : String) : Bool :=
  st.objects.contains (bucket, path)

/-- Public URL of a stored object, as constructed by the storage client from
the configured base URL, the bucket and the path. -/
def getPublicUrl (baseUrl bucket path : String) : String :=
  baseUrl ++ "/storage/v1/object/public/" ++ bucket ++ "/" ++ path

/-- Storage path of an uploaded certificate: the profile namespace, the
certificates folder, the millisecond timestamp, a hyphen and the original
file name. -/
def certificatePath (profile : String) (timestamp : Nat) (fileName : String) : String :=
  profile ++ "/certificates/" ++ decStr timestamp ++ "-" ++ fileName

/-- Storage path of an uploaded case-competition document: the fixed
case-competitions namespace, the millisecond timestamp, a hyphen and the
original file name. -/
def caseCompetitionPath (timestamp : Nat) (fileName : String) : String :=
  "case-competitions/" ++ decStr timestamp ++ "-" ++ fileName

/-- An object-store upload with overwrite disallowed (upsert false): an
existing object at the same path surfaces an error instead of being
replaced. -/
def uploadObject (st : StorageState) (bucket path : String) (e : Option SbErr) :
    Except SbErr StorageState :=
  match e with
  | some err => .error err
  | none =>
    if storageHas st bucket path then .error duplicateErr
    else .ok ⟨st.objects ++ [(bucket, path)]⟩

/-- POST /upload/certificate : requires fileName, fileBase64 and profile;
decodes the payload, stores it in the certificates bucket under the
profile-namespaced timestamped path with overwrite disallowed, and returns
the public URL and the storage path. -/
def uploadCertificate (st : StorageState) (baseUrl : String) (body : Row)
    (timestamp : Nat) (e : Option SbErr) : UResult :=
  if !truthyOpt (getField body "fileName") || !truthyOpt (getField body "fileBase64") ||
      !truthyOpt (getField body "profile") then
    ⟨fail400 "fileName, fileBase64, and profile are required", st, []⟩
  else
    let path := certificatePath (vToString (reqField body "profile")) timestamp
      (vToString (reqField body "fileName"))
    let calls := [Call.upload "certificates" path]
    match uploadObject st "certificates" path e with
    | .error err => ⟨fail500 err.message, st, calls⟩
    | .ok st2 =>
      let url := getPublicUrl baseUrl "certificates" path
      ⟨ok (.row [("file_url", .vstr url), ("path", .vstr path)]), st2, calls⟩

/-- POST /upload/case-competition-doc : requires fileName and fileBase64;
decodes the payload, stores it in the documents bucket under the fixed
case-competitions timestamped path with overwrite disallowed, and returns
the public URL and the storage path. -/
def uploadCaseCompetitionDoc (st : StorageState) (baseUrl : String) (body : Row)
    (timestamp : Nat) (e : Option SbErr) : UResult :=
  if !truthyOpt (getField body "fileName") || !truthyOpt (getField body "fileBase64") then
    ⟨fail400 "fileName and fileBase64 are required", st, []⟩
  else
    let path := caseCompetitionPath timestamp (vToString (reqField body "fileName"))
    let calls := [Call.upload "documents" path]
    match uploadObject st "documents" path e with
    | .error err => ⟨fail500 err.message, st, calls⟩
    | .ok st2 =>
      let url := getPublicUrl baseUrl "documents" path
      ⟨ok (.row [("file_url", .vstr url), ("path", .vstr path)]), st2, calls⟩

/-- Number of rows of the cp_ratings table carrying a platform. -/
def countPlatform (db : Database) (p : String) : Nat :=
  (matching db.cp_ratings "platform" (.vstr p)).length

/-- A single-writer sequence of PUT /cp-ratings/:platform requests, each with
a rating field in its body, executed in order against the data store. -/
def runCpPuts (db : Database) : List (String × Value × Value × String) → Database
  | [] => db
  | (p, rating, newId, now) :: rest =>
    runCpPuts (putCpRatings db p [("rating", rating)] newId now none none none).db rest

/-! ### Concrete states used to exhibit behaviors on explicit inputs -/

/-- A generic backend failure whose code is not the no-row code. -/
def errBoom : SbErr := ⟨"XX", "boom"⟩

def habitRow1 : Row := [("id", .vnum 1), ("profile", .vstr "piyush"), ("name", .vstr "gym")]

def entryRow1 : Row := [("id", .vnum 9), ("habit_id", .vnum 1), ("date", .vstr "2026-01-01")]

def entryRow2 : Row := [("id", .vnum 10), ("habit_id", .vnum 2), ("date", .vstr "2026-01-02")]

def dbHabits : Database :=
  { habits := [habitRow1]
    habit_entries := [entryRow1, entryRow2] }

def logRow1 : Row := [("id", .vnum 3), ("date", .vstr "2026-01-05"), ("dsa_questions_solved", .vnum 2)]

def dbLogs : Database := { daily_logs_piyush := [logRow1], daily_logs_shruti := [logRow1] }

def cpRow1 : Row :=
  [("platform", .vstr "codeforces"), ("rating", .vnum 1200), ("id", .vnum 4), ("created_at", .vstr "T0")]

def dbCp : Database := { cp_ratings := [cpRow1] }

def todoRow1 : Row :=
  [("id", .vnum 7), ("profile", .vstr "piyush"), ("content", .vstr "solve"), ("created_at", .vstr "T0")]

def dbTodos : Database := { todos := [todoRow1] }

/-- A state holding the same single row in every table, used to instantiate
the per-endpoint update and failure-propagation facts. -/
def dbAll : Database :=
  { todos := [todoRow1]
    habits := [todoRow1]
    habit_entries := [todoRow1]
    daily_logs_piyush := [todoRow1]
    daily_logs_shruti := [todoRow1]
    cp_ratings := [todoRow1]
    contest_logs := [todoRow1]
    a2z_progress := [todoRow1]
    blind75 := [todoRow1]
    courses := [todoRow1]
    certificates := [todoRow1]
    resume_sections := [todoRow1]
    projects := [todoRow1]
    skills := [todoRow1]
    case_studies := [todoRow1]
    guesstimates := [todoRow1]
    case_competitions := [todoRow1] }

/-! ### Lemmas about row field access -/

theorem applyUpdates_nil (r : Row) : applyUpdates r [] = r := rfl

theorem applyUpdates_cons (r : Row) (k : String) (v : Value) (rest : Row) :
    applyUpdates r ((k, v) :: rest) = applyUpdates (setField r k v) rest := rfl

theorem getField_setField_self (r : Row) (k : String) (v : Value) :
    getField (setField r k v) k = some v := by
  induction r with
  | nil => simp [setField, getField]
  | cons kv rest ih =>
    obtain ⟨k2, v2⟩ := kv
    by_cases h : k2 = k
    · simp [setField, h, getField]
    · simp [setField, h, getField, ih]

theorem getField_setField_ne (r : Row) {k key : String} (h : k ≠ key) (v : Value) :
    getField (setField r k v) key = getField r key := by
  induction r with
  | nil => simp [setField, getField, h]
  | cons kv rest ih =>
    obtain ⟨k2, v2⟩ := kv
    by_cases h2 : k2 = k
    · subst h2
      simp [setField, getField, h]
    · simp [setField, h2, getField, ih]

theorem getField_eq_none_of_not_mem (updates : Row) (k : String)
    (h : k ∉ updates.map Prod.fst) : getField updates k = none := by
  induction updates with
  | nil => rfl
  | cons kv rest ih =>
    obtain ⟨k1, v1⟩ := kv
    rw [List.map_cons, List.mem_cons, not_or] at h
    have h1 : ¬ k1 = k := fun hh => h.1 hh.symm
    simp [getField, h1, ih h.2]

theorem getField_applyUpdates_of_none (r updates : Row) (k : String)
    (h : getField updates k = none) :
    getField (applyUpdates r updates) k = getField r k := by
  induction updates generalizing r with
  | nil => rfl
  | cons kv rest ih =>
    obtain ⟨k1, v1⟩ := kv
    rw [applyUpdates_cons]
    by_cases h1 : k1 = k
    · simp [getField, h1] at h
    · have h2 : getField rest k = none := by simpa [getField, h1] using h
      rw [ih _ h2, getField_setField_ne _ h1]

theorem getField_applyUpdates_of_some (r updates : Row) (k : String) (v : Value)
    (hnd : (updates.map Prod.fst).Nodup) (h : getField updates k = some v) :
    getField (applyUpdates r updates) k = some v := by
  induction updates generalizing r with
  | nil => simp [getField] at h
  | cons kv rest ih =>
    obtain ⟨k1, v1⟩ := kv
    rw [applyUpdates_cons]
    rw [List.map_cons, List.nodup_cons] at hnd
    by_cases h1 : k1 = k
    · subst h1
      simp [getField] at h
      rw [getField_applyUpdates_of_none _ _ _
        (getField_eq_none_of_not_mem _ _ hnd.1),
        getField_setField_self, h]
    · have h2 : getField rest k = some v := by simpa [getField, h1] using h
      exact ih _ hnd.2 h2

theorem getField_append_left (r1 r2 : Row) (k : String) (v : Value)
    (h : getField r1 k = some v) : getField (r1 ++ r2) k = some v := by
  induction r1 with
  | nil => simp [getField] at h
  | cons kv rest ih =>
    obtain ⟨k1, v1⟩ := kv
    by_cases h1 : k1 = k
    · simp_all [getField]
    · simp_all [getField]

theorem getField_append_right (r1 r2 : Row) (k : String)
    (h : getField r1 k = none) : getField (r1 ++ r2) k = getField r2 k := by
  induction r1 with
  | nil => rfl
  | cons kv rest ih =>
    obtain ⟨k1, v1⟩ := kv
    by_cases h1 : k1 = k
    · simp [getField, h1] at h
    · simp_all [getField]

theorem getField_optField_append (body : Row) (k key : String) (rest : Row) (h : ¬ k = key) :
    getField (optField body k ++ rest) key = getField rest key := by
  unfold optField
  cases getField body k <;> simp [getField, h]

theorem updateByKey_matched (tbl : List Row) (n k : String) (val : Value) (u r : Row)
    (h : matching tbl k val = [r]) :
    updateByKey tbl n k val u none =
      (ok (.row (applyUpdates r u)), updateRows tbl k val u, [Call.update n k val u]) := by
  simp [updateByKey, h]

/-! ### Claim C8 -/

/-- Claim C8: for every delete-by-id endpoint, deleting an id for which no
row exists is not specially detected: as long as the data store reports no
error, the handler returns success with data carrying the id — the same
response as deleting an existing id — because the affected-row count is
never checked.  The response is this constant for every database state,
whether or not a row with the id exists. -/
theorem delete_by_id_ignores_row_count :
    ∀ (db : Database) (idv : Value),
      (deleteTodos db idv none).resp = ok (.row [("id", idv)]) ∧
      (deleteHabits db idv none none).resp = ok (.row [("id", idv)]) ∧
      (deleteDailyLogsPiyush db idv none).resp = ok (.row [("id", idv)]) ∧
      (deleteDailyLogsShruti db idv none).resp = ok (.row [("id", idv)]) ∧
      (deleteContestLogs db idv none).resp = ok (.row [("id", idv)]) ∧
      (deleteBlind75 db idv none).resp = ok (.row [("id", idv)]) ∧
      (deleteCourses db idv none).resp = ok (.row [("id", idv)]) ∧
      (deleteCertificates db idv none).resp = ok (.row [("id", idv)]) ∧
      (deleteProjects db idv none).resp = ok (.row [("id", idv)]) ∧
      (deleteSkills db idv none).resp = ok (.row [("id", idv)]) ∧
      (deleteCaseStudies db idv none).resp = ok (.row [("id", idv)]) ∧
      (deleteGuesstimates db idv none).resp = ok (.row [("id", idv)]) ∧
      (deleteCaseCompetitions db idv none).resp = ok (.row [("id", idv)]) :=
  fun _ _ =>
    ⟨rfl, rfl, rfl, rfl, rfl, rfl, rfl, rfl, rfl, rfl, rfl, rfl, rfl⟩

/-! ### Claim C2 -/

/-- Claim C2 as stated is refuted on this input: the habit-entries delete
call fails, its result is not checked, the habit delete succeeds, and the
handler answers success with the id even though the entry referencing the
habit is still present. -/
theorem habit_delete_success_with_surviving_entries :
    (deleteHabits dbHabits (.vnum 1) (some errBoom) none).resp.success = true ∧
    (deleteHabits dbHabits (.vnum 1) (some errBoom) none).resp.status = 200 ∧
    (deleteHabits dbHabits (.vnum 1) (some errBoom) none).resp.data = .row [("id", .vnum 1)] ∧
    (deleteHabits dbHabits (.vnum 1) (some errBoom) none).db.habit_entries = [entryRow1, entryRow2] ∧
    getField entryRow1 "habit_id" = some (.vnum 1) := by
  refine ⟨rfl, rfl, rfl, ?_, rfl⟩
  decide

/-- Claim C2 (amended): DELETE /habits/:id issues exactly two sequential
delete calls in this order — first the habit_entries rows with the given
habit_id, then the habits row with that id (the result of the first call is
not checked).  When both delete calls succeed, the habit row and every entry
referencing it are gone, habit_entries rows referencing any other habit are
unchanged, and the response is success with data carrying the id. -/
theorem habit_delete_cascade :
    ∀ (db : Database) (idv : Value),
      (∀ e1 e2 : Option SbErr,
        (deleteHabits db idv e1 e2).calls =
          [Call.delete "habit_entries" "habit_id" idv, Call.delete "habits" "id" idv]) ∧
      (deleteHabits db idv none none).resp = ok (.row [("id", idv)]) ∧
      (∀ r : Row, r ∈ (deleteHabits db idv none none).db.habit_entries ↔
        (r ∈ db.habit_entries ∧ ¬ getField r "habit_id" = some idv)) ∧
      (∀ r : Row, r ∈ (deleteHabits db idv none none).db.habits ↔
        (r ∈ db.habits ∧ ¬ getField r "id" = some idv)) := by
  intro db idv
  refine ⟨fun e1 e2 => ?_, rfl, fun r => ?_, fun r => ?_⟩
  · cases e1 <;> cases e2 <;> rfl
  · simp [deleteHabits, deleteRows, List.mem_filter]
  · simp [deleteHabits, deleteRows, List.mem_filter]

/-! ### Claim C4 -/

/-- Claim C4: the per-person daily-log fetch-by-date endpoints answer a date
with no stored row with HTTP 200, success true, null data and null error; a
date with exactly one stored row yields that row; any backend failure whose
code is not the no-row-found code propagates as a 500 failure carrying the
backend message. -/
theorem daily_log_fetch_by_date :
    ∀ (db : Database) (date : String),
      (matching db.daily_logs_piyush "date" (.vstr date) = [] →
        (getDailyLogsPiyushByDate db date none).resp = ok .pnull) ∧
      (∀ r : Row, matching db.daily_logs_piyush "date" (.vstr date) = [r] →
        (getDailyLogsPiyushByDate db date none).resp = ok (.row r)) ∧
      (∀ err : SbErr, ¬ err.code = "PGRST116" →
        (getDailyLogsPiyushByDate db date (some err)).resp = fail500 err.message) ∧
      (matching db.daily_logs_shruti "date" (.vstr date) = [] →
        (getDailyLogsShrutiByDate db date none).resp = ok .pnull) ∧
      (∀ r : Row, matching db.daily_logs_shruti "date" (.vstr date) = [r] →
        (getDailyLogsShrutiByDate db date none).resp = ok (.row r)) ∧
      (∀ err : SbErr, ¬ err.code = "PGRST116" →
        (getDailyLogsShrutiByDate db date (some err)).resp = fail500 err.message) := by
  intro db date
  refine ⟨fun h => ?_, fun r h => ?_, fun err h => ?_, fun h => ?_, fun r h => ?_, fun err h => ?_⟩
  · simp [getDailyLogsPiyushByDate, getSingleByKey, h, singleRows, pgrst116]
  · simp [getDailyLogsPiyushByDate, getSingleByKey, h, singleRows]
  · simp [getDailyLogsPiyushByDate, getSingleByKey, h]
  · simp [getDailyLogsShrutiByDate, getSingleByKey, h, singleRows, pgrst116]
  · simp [getDailyLogsShrutiByDate, getSingleByKey, h, singleRows]
  · simp [getDailyLogsShrutiByDate, getSingleByKey, h]

/-- Concrete instantiation of the daily-log fetch-by-date theorem: an empty
state has no row for the date, a one-row state yields its row, and a generic
backend failure propagates. -/
theorem daily_log_fetch_by_date_witness :
    (getDailyLogsPiyushByDate {} "2026-01-01" none).resp = ok .pnull ∧
    (getDailyLogsShrutiByDate dbLogs "2026-01-05" none).resp = ok (.row logRow1) ∧
    (getDailyLogsPiyushByDate {} "2026-01-01" (some errBoom)).resp = fail500 "boom" :=
  ⟨(daily_log_fetch_by_date {} "2026-01-01").1 (by decide),
   ((daily_log_fetch_by_date dbLogs "2026-01-05").2.2.2.2.1 logRow1 (by decide)),
   (daily_log_fetch_by_date {} "2026-01-01").2.2.1 errBoom (by decide)⟩

/-! ### Claim C10 -/

/-- Claim C10: GET /a2z-progress is not a pure read: when the a2z_progress
table holds no row, the handler inserts a row with all six counters zero and
answers success with that freshly created row; and after any successful GET,
the table holds at least one row. -/
theorem a2z_get_autocreates :
    (∀ (db : Database) (newId : Value) (now : String),
      db.a2z_progress = [] →
        (getA2zProgress db newId now none none).resp.status = 200 ∧
        (getA2zProgress db newId now none none).resp.success = true ∧
        getField (dataRow (getA2zProgress db newId now none none).resp.data) "easy_total" = some (.vnum 0) ∧
        getField (dataRow (getA2zProgress db newId now none none).resp.data) "easy_solved" = some (.vnum 0) ∧
        getField (dataRow (getA2zProgress db newId now none none).resp.data) "medium_total" = some (.vnum 0) ∧
        getField (dataRow (getA2zProgress db newId now none none).resp.data) "medium_solved" = some (.vnum 0) ∧
        getField (dataRow (getA2zProgress db newId now none none).resp.data) "hard_total" = some (.vnum 0) ∧
        getField (dataRow (getA2zProgress db newId now none none).resp.data) "hard_solved" = some (.vnum 0) ∧
        getField (dataRow (getA2zProgress db newId now none none).resp.data) "id" = some newId ∧
        (getA2zProgress db newId now none none).db.a2z_progress =
          [dataRow (getA2zProgress db newId now none none).resp.data] ∧
        (getA2zProgress db newId now none none).calls =
          [Call.select "a2z_progress", Call.insert "a2z_progress" a2zDefaults]) ∧
    (∀ (db : Database) (newId : Value) (now : String) (eSel eIns : Option SbErr),
      (getA2zProgress db newId now eSel eIns).resp.success = true →
        (getA2zProgress db newId now eSel eIns).db.a2z_progress ≠ []) := by
  constructor
  · intro db newId now h
    refine ⟨?_, ?_, ?_, ?_, ?_, ?_, ?_, ?_, ?_, ?_, ?_⟩ <;>
      simp [getA2zProgress, h, singleRows, pgrst116, createOne, a2zDefaults, dataRow, ok, getField]
  · intro db newId now eSel eIns
    cases eSel with
    | some err =>
      by_cases hc : err.code = "PGRST116"
      · cases eIns with
        | some ierr =>
          intro h
          exact absurd h (by simp [getA2zProgress, hc, createOne, fail500])
        | none =>
          intro _
          simp [getA2zProgress, hc, createOne]
      · intro h
        exact absurd h (by simp [getA2zProgress, hc, fail500])
    | none =>
      rcases hdb : db.a2z_progress with _ | ⟨r1, _ | ⟨r2, rest⟩⟩
      · cases eIns with
        | some ierr =>
          intro h
          exact absurd h (by simp [getA2zProgress, hdb, singleRows, pgrst116, createOne, fail500])
        | none =>
          intro _
          simp [getA2zProgress, hdb, singleRows, pgrst116, createOne]
      · intro _
        simp [getA2zProgress, hdb, singleRows, ok]
      · cases eIns with
        | some ierr =>
          intro h
          exact absurd h (by simp [getA2zProgress, hdb, singleRows, pgrst116, createOne, fail500])
        | none =>
          intro _
          simp [getA2zProgress, hdb, singleRows, pgrst116, createOne]

/-- Concrete instantiation of the a2z-progress theorem: on the empty state
the GET creates and returns the zeroed singleton row, and a successful GET
leaves the table nonempty. -/
theorem a2z_get_autocreates_witness :
    (getA2zProgress {} (.vnum 1) "T0" none none).resp.success = true ∧
    getField (dataRow (getA2zProgress {} (.vnum 1) "T0" none none).resp.data) "easy_total" = some (.vnum 0) ∧
    (getA2zProgress {} (.vnum 1) "T0" none none).db.a2z_progress ≠ [] :=
  ⟨(a2z_get_autocreates.1 {} (.vnum 1) "T0" (by decide)).2.1,
   (a2z_get_autocreates.1 {} (.vnum 1) "T0" (by decide)).2.2.1,
   a2z_get_autocreates.2 {} (.vnum 1) "T0" none none (by decide)⟩

/-! ### Claim C7 -/

/-- Claim C7: every partial-update-by-id endpoint forwards exactly the
caller-supplied request-body field set verbatim to the update call of the
data store — with no server-side schema validation and no field added,
removed or renamed — and, when exactly one row carries the id, answers that
row with the supplied fields changed; the final conjunct states that
applying a field set changes exactly the supplied fields of a row and leaves
every other field unchanged. -/
theorem update_forwards_body_verbatim :
    (∀ (db : Database) (idv : Value) (u r : Row), matching db.todos "id" idv = [r] →
      (putTodos db idv u none).calls = [Call.update "todos" "id" idv u] ∧
      (putTodos db idv u none).resp = ok (.row (applyUpdates r u))) ∧
    (∀ (db : Database) (idv : Value) (u r : Row), matching db.habits "id" idv = [r] →
      (putHabits db idv u none).calls = [Call.update "habits" "id" idv u] ∧
      (putHabits db idv u none).resp = ok (.row (applyUpdates r u))) ∧
    (∀ (db : Database) (idv : Value) (u r : Row), matching db.habit_entries "id" idv = [r] →
      (putHabitEntries db idv u none).calls = [Call.update "habit_entries" "id" idv u] ∧
      (putHabitEntries db idv u none).resp = ok (.row (applyUpdates r u))) ∧
    (∀ (db : Database) (idv : Value) (u r : Row), matching db.daily_logs_piyush "id" idv = [r] →
      (putDailyLogsPiyush db idv u none).calls = [Call.update "daily_logs_piyush" "id" idv u] ∧
      (putDailyLogsPiyush db idv u none).resp = ok (.row (applyUpdates r u))) ∧
    (∀ (db : Database) (idv : Value) (u r : Row), matching db.daily_logs_shruti "id" idv = [r] →
      (putDailyLogsShruti db idv u none).calls = [Call.update "daily_logs_shruti" "id" idv u] ∧
      (putDailyLogsShruti db idv u none).resp = ok (.row (applyUpdates r u))) ∧
    (∀ (db : Database) (idv : Value) (u r : Row), matching db.contest_logs "id" idv = [r] →
      (putContestLogs db idv u none).calls = [Call.update "contest_logs" "id" idv u] ∧
      (putContestLogs db idv u none).resp = ok (.row (applyUpdates r u))) ∧
    (∀ (db : Database) (idv : Value) (u r : Row), matching db.blind75 "id" idv = [r] →
      (putBlind75 db idv u none).calls = [Call.update "blind75" "id" idv u] ∧
      (putBlind75 db idv u none).resp = ok (.row (applyUpdates r u))) ∧
    (∀ (db : Database) (idv : Value) (u r : Row), matching db.courses "id" idv = [r] →
      (putCourses db idv u none).calls = [Call.update "courses" "id" idv u] ∧
      (putCourses db idv u none).resp = ok (.row (applyUpdates r u))) ∧
    (∀ (db : Database) (idv : Value) (u r : Row), matching db.resume_sections "id" idv = [r] →
      (putResumeSections db idv u none).calls = [Call.update "resume_sections" "id" idv u] ∧
      (putResumeSections db idv u none).resp = ok (.row (applyUpdates r u))) ∧
    (∀ (db : Database) (idv : Value) (u r : Row), matching db.projects "id" idv = [r] →
      (putProjects db idv u none).calls = [Call.update "projects" "id" idv u] ∧
      (putProjects db idv u none).resp = ok (.row (applyUpdates r u))) ∧
    (∀ (db : Database) (idv : Value) (u r : Row), matching db.skills "id" idv = [r] →
      (putSkills db idv u none).calls = [Call.update "skills" "id" idv u] ∧
      (putSkills db idv u none).resp = ok (.row (applyUpdates r u))) ∧
    (∀ (db : Database) (idv : Value) (u r : Row), matching db.case_studies "id" idv = [r] →
      (putCaseStudies db idv u none).calls = [Call.update "case_studies" "id" idv u] ∧
      (putCaseStudies db idv u none).resp = ok (.row (applyUpdates r u))) ∧
    (∀ (db : Database) (idv : Value) (u r : Row), matching db.guesstimates "id" idv = [r] →
      (putGuesstimates db idv u none).calls = [Call.update "guesstimates" "id" idv u] ∧
      (putGuesstimates db idv u none).resp = ok (.row (applyUpdates r u))) ∧
    (∀ (db : Database) (idv : Value) (u r : Row), matching db.case_competitions "id" idv = [r] →
      (putCaseCompetitions db idv u none).calls = [Call.update "case_competitions" "id" idv u] ∧
      (putCaseCompetitions db idv u none).resp = ok (.row (applyUpdates r u))) ∧
    (∀ (r u : Row) (k : String),
      ((u.map Prod.fst).Nodup →
        ∀ v : Value, getField u k = some v → getField (applyUpdates r u) k = some v) ∧
      (getField u k = none → getField (applyUpdates r u) k = getField r k)) := by
  refine ⟨?_, ?_, ?_, ?_, ?_, ?_, ?_, ?_, ?_, ?_, ?_, ?_, ?_, ?_, ?_⟩
  · intro db idv u r h
    exact ⟨by simp [putTodos, updateByKey_matched _ _ _ _ _ _ h],
      by simp [putTodos, updateByKey_matched _ _ _ _ _ _ h]⟩
  · intro db idv u r h
    exact ⟨by simp [putHabits, updateByKey_matched _ _ _ _ _ _ h],
      by simp [putHabits, updateByKey_matched _ _ _ _ _ _ h]⟩
  · intro db idv u r h
    exact ⟨by simp [putHabitEntries, updateByKey_matched _ _ _ _ _ _ h],
      by simp [putHabitEntries, updateByKey_matched _ _ _ _ _ _ h]⟩
  · intro db idv u r h
    exact ⟨by simp [putDailyLogsPiyush, updateByKey_matched _ _ _ _ _ _ h],
      by simp [putDailyLogsPiyush, updateByKey_matched _ _ _ _ _ _ h]⟩
  · intro db idv u r h
    exact ⟨by simp [putDailyLogsShruti, updateByKey_matched _ _ _ _ _ _ h],
      by simp [putDailyLogsShruti, updateByKey_matched _ _ _ _ _ _ h]⟩
  · intro db idv u r h
    exact ⟨by simp [putContestLogs, updateByKey_matched _ _ _ _ _ _ h],
      by simp [putContestLogs, updateByKey_matched _ _ _ _ _ _ h]⟩
  · intro db idv u r h
    exact ⟨by simp [putBlind75, updateByKey_matched _ _ _ _ _ _ h],
      by simp [putBlind75, updateByKey_matched _ _ _ _ _ _ h]⟩
  · intro db idv u r h
    exact ⟨by simp [putCourses, updateByKey_matched _ _ _ _ _ _ h],
      by simp [putCourses, updateByKey_matched _ _ _ _ _ _ h]⟩
  · intro db idv u r h
    exact ⟨by simp [putResumeSections, updateByKey_matched _ _ _ _ _ _ h],
      by simp [putResumeSections, updateByKey_matched _ _ _ _ _ _ h]⟩
  · intro db idv u r h
    exact ⟨by simp [putProjects, updateByKey_matched _ _ _ _ _ _ h],
      by simp [putProjects, updateByKey_matched _ _ _ _ _ _ h]⟩
  · intro db idv u r h
    exact ⟨by simp [putSkills, updateByKey_matched _ _ _ _ _ _ h],
      by simp [putSkills, updateByKey_matched _ _ _ _ _ _ h]⟩
  · intro db idv u r h
    exact ⟨by simp [putCaseStudies, updateByKey_matched _ _ _ _ _ _ h],
      by simp [putCaseStudies, updateByKey_matched _ _ _ _ _ _ h]⟩
  · intro db idv u r h
    exact ⟨by simp [putGuesstimates, updateByKey_matched _ _ _ _ _ _ h],
      by simp [putGuesstimates, updateByKey_matched _ _ _ _ _ _ h]⟩
  · intro db idv u r h
    exact ⟨by simp [putCaseCompetitions, updateByKey_matched _ _ _ _ _ _ h],
      by simp [putCaseCompetitions, updateByKey_matched _ _ _ _ _ _ h]⟩
  · intro r u k
    exact ⟨fun hnd v hv => getField_applyUpdates_of_some r u k v hnd hv,
      fun hn => getField_applyUpdates_of_none r u k hn⟩

/-- Concrete instantiation of the update theorem: each update endpoint, on a
state whose table holds exactly the row with id 7, answers that row with the
supplied field set applied; the supplied field changes and an unsupplied
field keeps its value. -/
theorem update_forwards_body_verbatim_witness :
    (putTodos dbAll (.vnum 7) [("content", .vstr "new")] none).resp
      = ok (.row (applyUpdates todoRow1 [("content", .vstr "new")])) ∧
    (putHabits dbAll (.vnum 7) [("content", .vstr "new")] none).resp
      = ok (.row (applyUpdates todoRow1 [("content", .vstr "new")])) ∧
    (putHabitEntries dbAll (.vnum 7) [("content", .vstr "new")] none).resp
      = ok (.row (applyUpdates todoRow1 [("content", .vstr "new")])) ∧
    (putDailyLogsPiyush dbAll (.vnum 7) [("content", .vstr "new")] none).resp
      = ok (.row (applyUpdates todoRow1 [("content", .vstr "new")])) ∧
    (putDailyLogsShruti dbAll (.vnum 7) [("content", .vstr "new")] none).resp
      = ok (.row (applyUpdates todoRow1 [("content", .vstr "new")])) ∧
    (putContestLogs dbAll (.vnum 7) [("content", .vstr "new")] none).resp
      = ok (.row (applyUpdates todoRow1 [("content", .vstr "new")])) ∧
    (putBlind75 dbAll (.vnum 7) [("content", .vstr "new")] none).resp
      = ok (.row (applyUpdates todoRow1 [("content", .vstr "new")])) ∧
    (putCourses dbAll (.vnum 7) [("content", .vstr "new")] none).resp
      = ok (.row (applyUpdates todoRow1 [("content", .vstr "new")])) ∧
    (putResumeSections dbAll (.vnum 7) [("content", .vstr "new")] none).resp
      = ok (.row (applyUpdates todoRow1 [("content", .vstr "new")])) ∧
    (putProjects dbAll (.vnum 7) [("content", .vstr "new")] none).resp
      = ok (.row (applyUpdates todoRow1 [("content", .vstr "new")])) ∧
    (putSkills dbAll (.vnum 7) [("content", .vstr "new")] none).resp
      = ok (.row (applyUpdates todoRow1 [("content", .vstr "new")])) ∧
    (putCaseStudies dbAll (.vnum 7) [("content", .vstr "new")] none).resp
      = ok (.row (applyUpdates todoRow1 [("content", .vstr "new")])) ∧
    (putGuesstimates dbAll (.vnum 7) [("content", .vstr "new")] none).resp
      = ok (.row (applyUpdates todoRow1 [("content", .vstr "new")])) ∧
    (putCaseCompetitions dbAll (.vnum 7) [("content", .vstr "new")] none).resp
      = ok (.row (applyUpdates todoRow1 [("content", .vstr "new")])) ∧
    getField (applyUpdates todoRow1 [("content", .vstr "new")]) "content" = some (.vstr "new") ∧
    getField (applyUpdates todoRow1 [("content", .vstr "new")]) "profile" = getField todoRow1 "profile" := by
  obtain ⟨t1, t2, t3, t4, t5, t6, t7, t8, t9, t10, t11, t12, t13, t14, t15⟩ :=
    update_forwards_body_verbatim
  exact ⟨(t1 dbAll (.vnum 7) _ todoRow1 (by decide)).2,
    (t2 dbAll (.vnum 7) _ todoRow1 (by decide)).2,
    (t3 dbAll (.vnum 7) _ todoRow1 (by decide)).2,
    (t4 dbAll (.vnum 7) _ todoRow1 (by decide)).2,
    (t5 dbAll (.vnum 7) _ todoRow1 (by decide)).2,
    (t6 dbAll (.vnum 7) _ todoRow1 (by decide)).2,
    (t7 dbAll (.vnum 7) _ todoRow1 (by decide)).2,
    (t8 dbAll (.vnum 7) _ todoRow1 (by decide)).2,
    (t9 dbAll (.vnum 7) _ todoRow1 (by decide)).2,
    (t10 dbAll (.vnum 7) _ todoRow1 (by decide)).2,
    (t11 dbAll (.vnum 7) _ todoRow1 (by decide)).2,
    (t12 dbAll (.vnum 7) _ todoRow1 (by decide)).2,
    (t13 dbAll (.vnum 7) _ todoRow1 (by decide)).2,
    (t14 dbAll (.vnum 7) _ todoRow1 (by decide)).2,
    (t15 todoRow1 [("content", .vstr "new")] "content").1 (by decide) (.vstr "new") (by decide),
    (t15 todoRow1 [("content", .vstr "new")] "profile").2 (by decide)⟩

/-! ### Claim C6 -/

/-- Claim C6 as stated is refuted: POST /habit-entries with the falsy value 0
supplied for the optional completed field inserts completed = false rather
than the supplied value, because the || defaulting idiom replaces every
falsy supplied value. -/
theorem create_supplied_falsy_optional_replaced :
    getField [("habit_id", Value.vnum 1), ("date", Value.vstr "2026-01-01"),
      ("completed", Value.vnum 0)] "completed" = some (.vnum 0) ∧
    getField (dataRow (postHabitEntries {}
      [("habit_id", .vnum 1), ("date", .vstr "2026-01-01"), ("completed", .vnum 0)]
      (.vnum 5) "T0" none).resp.data) "completed" = some (.vbool false) ∧
    (postHabitEntries {}
      [("habit_id", .vnum 1), ("date", .vstr "2026-01-01"), ("completed", .vnum 0)]
      (.vnum 5) "T0" none).resp.success = true ∧
    ¬ (Value.vbool false) = (Value.vnum 0) := by
  decide

/-- Claim C6 (amended): POST /habit-entries inserts completed = false when
completed is omitted, POST /habits inserts sort_order = 0 when sort_order is
omitted, and POST /courses inserts total_content = 100 and
completed_content = 0 when those are omitted; when the caller supplies a
truthy value for one of these optional fields, that supplied value is
inserted, but a falsy supplied value is replaced by the default. -/
theorem create_optional_defaults :
    (∀ (db : Database) (body : Row) (newId : Value) (now : String),
      truthyOpt (getField body "habit_id") = true →
      truthyOpt (getField body "date") = true →
      (getField body "completed" = none →
        getField (dataRow (postHabitEntries db body newId now none).resp.data) "completed"
          = some (.vbool false)) ∧
      (∀ w : Value, getField body "completed" = some w → truthy w = true →
        getField (dataRow (postHabitEntries db body newId now none).resp.data) "completed"
          = some w) ∧
      (∀ w : Value, getField body "completed" = some w → truthy w = false →
        getField (dataRow (postHabitEntries db body newId now none).resp.data) "completed"
          = some (.vbool false))) ∧
    (∀ (db : Database) (body : Row) (newId : Value) (now : String),
      truthyOpt (getField body "profile") = true →
      truthyOpt (getField body "name") = true →
      (getField body "sort_order" = none →
        getField (dataRow (postHabits db body newId now none).resp.data) "sort_order"
          = some (.vnum 0)) ∧
      (∀ w : Value, getField body "sort_order" = some w → truthy w = true →
        getField (dataRow (postHabits db body newId now none).resp.data) "sort_order" = some w)) ∧
    (∀ (db : Database) (body : Row) (newId : Value) (now : String),
      truthyOpt (getField body "profile") = true →
      truthyOpt (getField body "course_name") = true →
      truthyOpt (getField body "platform") = true →
      (getField body "total_content" = none →
        getField (dataRow (postCourses db body newId now none).resp.data) "total_content"
          = some (.vnum 100)) ∧
      (getField body "completed_content" = none →
        getField (dataRow (postCourses db body newId now none).resp.data) "completed_content"
          = some (.vnum 0)) ∧
      (∀ w : Value, getField body "total_content" = some w → truthy w = true →
        getField (dataRow (postCourses db body newId now none).resp.data) "total_content"
          = some w) ∧
      (∀ w : Value, getField body "completed_content" = some w → truthy w = true →
        getField (dataRow (postCourses db body newId now none).resp.data) "completed_content"
          = some w)) := by
  refine ⟨?_, ?_, ?_⟩
  · intro db body newId now h1 h2
    refine ⟨fun h3 => ?_, fun w h3 h4 => ?_, fun w h3 h4 => ?_⟩
    · simp [postHabitEntries, h1, h2, h3, createOne, dataRow, ok, getField, jsOr, reqField]
    · simp [postHabitEntries, h1, h2, h3, h4, createOne, dataRow, ok, getField, jsOr, reqField]
    · simp [postHabitEntries, h1, h2, h3, h4, createOne, dataRow, ok, getField, jsOr, reqField]
  · intro db body newId now h1 h2
    refine ⟨fun h3 => ?_, fun w h3 h4 => ?_⟩
    · simp [postHabits, h1, h2, h3, createOne, dataRow, ok, getField, jsOr, reqField]
    · simp [postHabits, h1, h2, h3, h4, createOne, dataRow, ok, getField, jsOr, reqField]
  · intro db body newId now h1 h2 h3
    refine ⟨fun h4 => ?_, fun h4 => ?_, fun w h4 h5 => ?_, fun w h4 h5 => ?_⟩
    · simp [postCourses, h1, h2, h3, h4, createOne, dataRow, ok, getField, jsOr, reqField]
    · simp [postCourses, h1, h2, h3, h4, createOne, dataRow, ok, getField, jsOr, reqField]
    · simp [postCourses, h1, h2, h3, h4, h5, createOne, dataRow, ok, getField, jsOr, reqField]
    · simp [postCourses, h1, h2, h3, h4, h5, createOne, dataRow, ok, getField, jsOr, reqField]

/-- Concrete instantiation of the optional-defaults theorem: omitted fields
take the documented defaults and a truthy supplied value is kept. -/
theorem create_optional_defaults_witness :
    getField (dataRow (postHabitEntries {} [("habit_id", .vnum 1), ("date", .vstr "2026-01-01")]
      (.vnum 5) "T0" none).resp.data) "completed" = some (.vbool false) ∧
    getField (dataRow (postHabits {} [("profile", .vstr "a"), ("name", .vstr "gym")]
      (.vnum 5) "T0" none).resp.data) "sort_order" = some (.vnum 0) ∧
    getField (dataRow (postCourses {} [("profile", .vstr "a"), ("course_name", .vstr "c"),
      ("platform", .vstr "u")] (.vnum 5) "T0" none).resp.data) "total_content" = some (.vnum 100) ∧
    getField (dataRow (postCourses {} [("profile", .vstr "a"), ("course_name", .vstr "c"),
      ("platform", .vstr "u")] (.vnum 5) "T0" none).resp.data) "completed_content" = some (.vnum 0) ∧
    getField (dataRow (postCourses {} [("profile", .vstr "a"), ("course_name", .vstr "c"),
      ("platform", .vstr "u"), ("total_content", .vnum 60)] (.vnum 5) "T0" none).resp.data)
      "total_content" = some (.vnum 60) := by
  obtain ⟨te, th, tc⟩ := create_optional_defaults
  exact ⟨(te {} [("habit_id", .vnum 1), ("date", .vstr "2026-01-01")] (.vnum 5) "T0"
      (by decide) (by decide)).1 (by decide),
    (th {} [("profile", .vstr "a"), ("name", .vstr "gym")] (.vnum 5) "T0"
      (by decide) (by decide)).1 (by decide),
    (tc {} [("profile", .vstr "a"), ("course_name", .vstr "c"), ("platform", .vstr "u")]
      (.vnum 5) "T0" (by decide) (by decide) (by decide)).1 (by decide),
    (tc {} [("profile", .vstr "a"), ("course_name", .vstr "c"), ("platform", .vstr "u")]
      (.vnum 5) "T0" (by decide) (by decide) (by decide)).2.1 (by decide),
    (tc {} [("profile", .vstr "a"), ("course_name", .vstr "c"), ("platform", .vstr "u"),
      ("total_content", .vnum 60)] (.vnum 5) "T0" (by decide) (by decide) (by decide)).2.2.1
      (.vnum 60) (by decide) (by decide)⟩

/-! ### Claim C5 -/

/-- Claim C5 as stated is refuted: POST /courses with every required field
present and the falsy value 0 supplied for total_content answers success,
but the returned row carries total_content 100, not the supplied 0, so the
fields of the row do not match the supplied input. -/
theorem create_row_not_matching_supplied_input :
    getField [("profile", Value.vstr "p"), ("course_name", Value.vstr "c"),
      ("platform", Value.vstr "u"), ("total_content", Value.vnum 0)] "total_content"
      = some (.vnum 0) ∧
    (postCourses {} [("profile", .vstr "p"), ("course_name", .vstr "c"),
      ("platform", .vstr "u"), ("total_content", .vnum 0)] (.vnum 1) "T0" none).resp.success
      = true ∧
    getField (dataRow (postCourses {} [("profile", .vstr "p"), ("course_name", .vstr "c"),
      ("platform", .vstr "u"), ("total_content", .vnum 0)] (.vnum 1) "T0" none).resp.data)
      "total_content" = some (.vnum 100) ∧
    ¬ (Value.vnum 100) = (Value.vnum 0) := by
  decide

/-- Claim C5 (amended): for every create endpoint, when every required field
is present (truthy) in the request body, the handler issues exactly one
insert and answers success with a row that is the inserted payload plus a
server-assigned id and creation timestamp, with every supplied required
field appearing verbatim; a defaulted optional field takes the supplied
value only when truthy (a falsy supplied value is replaced by the documented
default, see the optional-defaults theorem).  When a required field is
omitted, the handler answers a 400 validation failure, leaves the state
unchanged, and issues no data-store call. -/
theorem create_inserts_and_validates :
    (∀ (db : Database) (body : Row) (newId : Value) (now : String) (p c : Value),
      getField body "profile" = some p → truthy p = true →
      getField body "content" = some c → truthy c = true →
      (postTodos db body newId now none).resp.status = 200 ∧
      (postTodos db body newId now none).resp.success = true ∧
      (∃ payload : Row, (postTodos db body newId now none).calls
          = [Call.insert "todos" payload] ∧
        (postTodos db body newId now none).resp.data
          = .row (payload ++ [("id", newId), ("created_at", .vstr now)])) ∧
      getField (dataRow (postTodos db body newId now none).resp.data) "profile" = some p ∧
      getField (dataRow (postTodos db body newId now none).resp.data) "content" = some c ∧
      getField (dataRow (postTodos db body newId now none).resp.data) "id" = some newId ∧
      getField (dataRow (postTodos db body newId now none).resp.data) "created_at"
        = some (.vstr now)) ∧
    (∀ (db : Database) (body : Row) (newId : Value) (now : String) (e : Option SbErr),
      (getField body "profile" = none ∨ getField body "content" = none) →
      postTodos db body newId now e = ⟨fail400 "Profile and content are required", db, []⟩) ∧
    (∀ (db : Database) (body : Row) (newId : Value) (now : String) (p nm : Value),
      getField body "profile" = some p → truthy p = true →
      getField body "name" = some nm → truthy nm = true →
      (postHabits db body newId now none).resp.status = 200 ∧
      (postHabits db body newId now none).resp.success = true ∧
      (∃ payload : Row, (postHabits db body newId now none).calls
          = [Call.insert "habits" payload] ∧
        (postHabits db body newId now none).resp.data
          = .row (payload ++ [("id", newId), ("created_at", .vstr now)])) ∧
      getField (dataRow (postHabits db body newId now none).resp.data) "profile" = some p ∧
      getField (dataRow (postHabits db body newId now none).resp.data) "name" = some nm ∧
      getField (dataRow (postHabits db body newId now none).resp.data) "id" = some newId ∧
      getField (dataRow (postHabits db body newId now none).resp.data) "created_at"
        = some (.vstr now)) ∧
    (∀ (db : Database) (body : Row) (newId : Value) (now : String) (e : Option SbErr),
      (getField body "profile" = none ∨ getField body "name" = none) →
      postHabits db body newId now e = ⟨fail400 "Profile and name are required", db, []⟩) ∧
    (∀ (db : Database) (body : Row) (newId : Value) (now : String) (hid d : Value),
      getField body "habit_id" = some hid → truthy hid = true →
      getField body "date" = some d → truthy d = true →
      (postHabitEntries db body newId now none).resp.status = 200 ∧
      (postHabitEntries db body newId now none).resp.success = true ∧
      (∃ payload : Row, (postHabitEntries db body newId now none).calls
          = [Call.insert "habit_entries" payload] ∧
        (postHabitEntries db body newId now none).resp.data
          = .row (payload ++ [("id", newId), ("created_at", .vstr now)])) ∧
      getField (dataRow (postHabitEntries db body newId now none).resp.data) "habit_id"
        = some hid ∧
      getField (dataRow (postHabitEntries db body newId now none).resp.data) "date" = some d ∧
      getField (dataRow (postHabitEntries db body newId now none).resp.data) "id" = some newId ∧
      getField (dataRow (postHabitEntries db body newId now none).resp.data) "created_at"
        = some (.vstr now)) ∧
    (∀ (db : Database) (body : Row) (newId : Value) (now : String) (e : Option SbErr),
      (getField body "habit_id" = none ∨ getField body "date" = none) →
      postHabitEntries db body newId now e = ⟨fail400 "habit_id and date are required", db, []⟩) ∧
    (∀ (db : Database) (body : Row) (newId : Value) (now : String) (d : Value),
      getField body "date" = some d → truthy d = true →
      (postDailyLogsPiyush db body newId now none).resp.status = 200 ∧
      (postDailyLogsPiyush db body newId now none).resp.success = true ∧
      (∃ payload : Row, (postDailyLogsPiyush db body newId now none).calls
          = [Call.insert "daily_logs_piyush" payload] ∧
        (postDailyLogsPiyush db body newId now none).resp.data
          = .row (payload ++ [("id", newId), ("created_at", .vstr now)])) ∧
      getField (dataRow (postDailyLogsPiyush db body newId now none).resp.data) "date"
        = some d ∧
      getField (dataRow (postDailyLogsPiyush db body newId now none).resp.data) "id"
        = some newId ∧
      getField (dataRow (postDailyLogsPiyush db body newId now none).resp.data) "created_at"
        = some (.vstr now)) ∧
    (∀ (db : Database) (body : Row) (newId : Value) (now : String) (e : Option SbErr),
      getField body "date" = none →
      postDailyLogsPiyush db body newId now e = ⟨fail400 "Date is required", db, []⟩) ∧
    (∀ (db : Database) (body : Row) (newId : Value) (now : String) (d : Value),
      getField body "date" = some d → truthy d = true →
      (postDailyLogsShruti db body newId now none).resp.status = 200 ∧
      (postDailyLogsShruti db body newId now none).resp.success = true ∧
      (∃ payload : Row, (postDailyLogsShruti db body newId now none).calls
          = [Call.insert "daily_logs_shruti" payload] ∧
        (postDailyLogsShruti db body newId now none).resp.data
          = .row (payload ++ [("id", newId), ("created_at", .vstr now)])) ∧
      getField (dataRow (postDailyLogsShruti db body newId now none).resp.data) "date"
        = some d ∧
      getField (dataRow (postDailyLogsShruti db body newId now none).resp.data) "id"
        = some newId ∧
      getField (dataRow (postDailyLogsShruti db body newId now none).resp.data) "created_at"
        = some (.vstr now)) ∧
    (∀ (db : Database) (body : Row) (newId : Value) (now : String) (e : Option SbErr),
      getField body "date" = none →
      postDailyLogsShruti db body newId now e = ⟨fail400 "Date is required", db, []⟩) ∧
    (∀ (db : Database) (body : Row) (newId : Value) (now : String) (pf cn d : Value),
      getField body "platform" = some pf → truthy pf = true →
      getField body "contest_name" = some cn → truthy cn = true →
      getField body "date" = some d → truthy d = true →
      (postContestLogs db body newId now none).resp.status = 200 ∧
      (postContestLogs db body newId now none).resp.success = true ∧
      (∃ payload : Row, (postContestLogs db body newId now none).calls
          = [Call.insert "contest_logs" payload] ∧
        (postContestLogs db body newId now none).resp.data
          = .row (payload ++ [("id", newId), ("created_at", .vstr now)])) ∧
      getField (dataRow (postContestLogs db body newId now none).resp.data) "platform"
        = some pf ∧
      getField (dataRow (postContestLogs db body newId now none).resp.data) "contest_name"
        = some cn ∧
      getField (dataRow (postContestLogs db body newId now none).resp.data) "date" = some d ∧
      getField (dataRow (postContestLogs db body newId now none).resp.data) "id" = some newId ∧
      getField (dataRow (postContestLogs db body newId now none).resp.data) "created_at"
        = some (.vstr now)) ∧
    (∀ (db : Database) (body : Row) (newId : Value) (now : String) (e : Option SbErr),
      (getField body "platform" = none ∨ getField body "contest_name" = none ∨
        getField body "date" = none) →
      postContestLogs db body newId now e
        = ⟨fail400 "Platform, contest_name, and date are required", db, []⟩) ∧
    (∀ (db : Database) (body : Row) (newId : Value) (now : String) (q : Value),
      getField body "question_name" = some q → truthy q = true →
      (postBlind75 db body newId now none).resp.status = 200 ∧
      (postBlind75 db body newId now none).resp.success = true ∧
      (∃ payload : Row, (postBlind75 db body newId now none).calls
          = [Call.insert "blind75" payload] ∧
        (postBlind75 db body newId now none).resp.data
          = .row (payload ++ [("id", newId), ("created_at", .vstr now)])) ∧
      getField (dataRow (postBlind75 db body newId now none).resp.data) "question_name"
        = some q ∧
      getField (dataRow (postBlind75 db body newId now none).resp.data) "id" = some newId ∧
      getField (dataRow (postBlind75 db body newId now none).resp.data) "created_at"
        = some (.vstr now)) ∧
    (∀ (db : Database) (body : Row) (newId : Value) (now : String) (e : Option SbErr),
      getField body "question_name" = none →
      postBlind75 db body newId now e = ⟨fail400 "Question name is required", db, []⟩) ∧
    (∀ (db : Database) (body : Row) (newId : Value) (now : String) (p cn pf : Value),
      getField body "profile" = some p → truthy p = true →
      getField body "course_name" = some cn → truthy cn = true →
      getField body "platform" = some pf → truthy pf = true →
      (postCourses db body newId now none).resp.status = 200 ∧
      (postCourses db body newId now none).resp.success = true ∧
      (∃ payload : Row, (postCourses db body newId now none).calls
          = [Call.insert "courses" payload] ∧
        (postCourses db body newId now none).resp.data
          = .row (payload ++ [("id", newId), ("created_at", .vstr now)])) ∧
      getField (dataRow (postCourses db body newId now none).resp.data) "profile" = some p ∧
      getField (dataRow (postCourses db body newId now none).resp.data) "course_name"
        = some cn ∧
      getField (dataRow (postCourses db body newId now none).resp.data) "platform" = some pf ∧
      getField (dataRow (postCourses db body newId now none).resp.data) "id" = some newId ∧
      getField (dataRow (postCourses db body newId now none).resp.data) "created_at"
        = some (.vstr now)) ∧
    (∀ (db : Database) (body : Row) (newId : Value) (now : String) (e : Option SbErr),
      (getField body "profile" = none ∨ getField body "course_name" = none ∨
        getField body "platform" = none) →
      postCourses db body newId now e
        = ⟨fail400 "Profile, course_name, and platform are required", db, []⟩) ∧
    (∀ (db : Database) (body : Row) (newId : Value) (now : String) (p t i d : Value),
      getField body "profile" = some p → truthy p = true →
      getField body "title" = some t → truthy t = true →
      getField body "issuer" = some i → truthy i = true →
      getField body "date" = some d → truthy d = true →
      (postCertificates db body newId now none).resp.status = 200 ∧
      (postCertificates db body newId now none).resp.success = true ∧
      (∃ payload : Row, (postCertificates db body newId now none).calls
          = [Call.insert "certificates" payload] ∧
        (postCertificates db body newId now none).resp.data
          = .row (payload ++ [("id", newId), ("created_at", .vstr now)])) ∧
      getField (dataRow (postCertificates db body newId now none).resp.data) "profile"
        = some p ∧
      getField (dataRow (postCertificates db body newId now none).resp.data) "title" = some t ∧
      getField (dataRow (postCertificates db body newId now none).resp.data) "issuer"
        = some i ∧
      getField (dataRow (postCertificates db body newId now none).resp.data) "date" = some d ∧
      getField (dataRow (postCertificates db body newId now none).resp.data) "id"
        = some newId ∧
      getField (dataRow (postCertificates db body newId now none).resp.data) "created_at"
        = some (.vstr now)) ∧
    (∀ (db : Database) (body : Row) (newId : Value) (now : String) (e : Option SbErr),
      (getField body "profile" = none ∨ getField body "title" = none ∨
        getField body "issuer" = none ∨ getField body "date" = none) →
      postCertificates db body newId now e
        = ⟨fail400 "Profile, title, issuer, and date are required", db, []⟩) ∧
    (∀ (db : Database) (body : Row) (newId : Value) (now : String) (p pn : Value),
      getField body "profile" = some p → truthy p = true →
      getField body "project_name" = some pn → truthy pn = true →
      (postProjects db body newId now none).resp.status = 200 ∧
      (postProjects db body newId now none).resp.success = true ∧
      (∃ payload : Row, (postProjects db body newId now none).calls
          = [Call.insert "projects" payload] ∧
        (postProjects db body newId now none).resp.data
          = .row (payload ++ [("id", newId), ("created_at", .vstr now)])) ∧
      getField (dataRow (postProjects db body newId now none).resp.data) "profile" = some p ∧
      getField (dataRow (postProjects db body newId now none).resp.data) "project_name"
        = some pn ∧
      getField (dataRow (postProjects db body newId now none).resp.data) "id" = some newId ∧
      getField (dataRow (postProjects db body newId now none).resp.data) "created_at"
        = some (.vstr now)) ∧
    (∀ (db : Database) (body : Row) (newId : Value) (now : String) (e : Option SbErr),
      (getField body "profile" = none ∨ getField body "project_name" = none) →
      postProjects db body newId now e
        = ⟨fail400 "Profile and project_name are required", db, []⟩) ∧
    (∀ (db : Database) (body : Row) (newId : Value) (now : String) (p sn : Value),
      getField body "profile" = some p → truthy p = true →
      getField body "skill_name" = some sn → truthy sn = true →
      (postSkills db body newId now none).resp.status = 200 ∧
      (postSkills db body newId now none).resp.success = true ∧
      (∃ payload : Row, (postSkills db body newId now none).calls
          = [Call.insert "skills" payload] ∧
        (postSkills db body newId now none).resp.data
          = .row (payload ++ [("id", newId), ("created_at", .vstr now)])) ∧
      getField (dataRow (postSkills db body newId now none).resp.data) "profile" = some p ∧
      getField (dataRow (postSkills db body newId now none).resp.data) "skill_name"
        = some sn ∧
      getField (dataRow (postSkills db body newId now none).resp.data) "id" = some newId ∧
      getField (dataRow (postSkills db body newId now none).resp.data) "created_at"
        = some (.vstr now)) ∧
    (∀ (db : Database) (body : Row) (newId : Value) (now : String) (e : Option SbErr),
      (getField body "profile" = none ∨ getField body "skill_name" = none) →
      postSkills db body newId now e = ⟨fail400 "Profile and skill_name are required", db, []⟩) ∧
    (∀ (db : Database) (body : Row) (newId : Value) (now : String) (t d : Value),
      getField body "title" = some t → truthy t = true →
      getField body "date" = some d → truthy d = true →
      (postCaseStudies db body newId now none).resp.status = 200 ∧
      (postCaseStudies db body newId now none).resp.success = true ∧
      (∃ payload : Row, (postCaseStudies db body newId now none).calls
          = [Call.insert "case_studies" payload] ∧
        (postCaseStudies db body newId now none).resp.data
          = .row (payload ++ [("id", newId), ("created_at", .vstr now)])) ∧
      getField (dataRow (postCaseStudies db body newId now none).resp.data) "title" = some t ∧
      getField (dataRow (postCaseStudies db body newId now none).resp.data) "date" = some d ∧
      getField (dataRow (postCaseStudies db body newId now none).resp.data) "id" = some newId ∧
      getField (dataRow (postCaseStudies db body newId now none).resp.data) "created_at"
        = some (.vstr now)) ∧
    (∀ (db : Database) (body : Row) (newId : Value) (now : String) (e : Option SbErr),
      (getField body "title" = none ∨ getField body "date" = none) →
      postCaseStudies db body newId now e = ⟨fail400 "Title and date are required", db, []⟩) ∧
    (∀ (db : Database) (body : Row) (newId : Value) (now : String) (tp : Value),
      getField body "topic" = some tp → truthy tp = true →
      (postGuesstimates db body newId now none).resp.status = 200 ∧
      (postGuesstimates db body newId now none).resp.success = true ∧
      (∃ payload : Row, (postGuesstimates db body newId now none).calls
          = [Call.insert "guesstimates" payload] ∧
        (postGuesstimates db body newId now none).resp.data
          = .row (payload ++ [("id", newId), ("created_at", .vstr now)])) ∧
      getField (dataRow (postGuesstimates db body newId now none).resp.data) "topic"
        = some tp ∧
      getField (dataRow (postGuesstimates db body newId now none).resp.data) "id"
        = some newId ∧
      getField (dataRow (postGuesstimates db body newId now none).resp.data) "created_at"
        = some (.vstr now)) ∧
    (∀ (db : Database) (body : Row) (newId : Value) (now : String) (e : Option SbErr),
      getField body "topic" = none →
      postGuesstimates db body newId now e = ⟨fail400 "Topic is required", db, []⟩) ∧
    (∀ (db : Database) (body : Row) (newId : Value) (now : String) (cn : Value),
      getField body "competition_name" = some cn → truthy cn = true →
      (postCaseCompetitions db body newId now none).resp.status = 200 ∧
      (postCaseCompetitions db body newId now none).resp.success = true ∧
      (∃ payload : Row, (postCaseCompetitions db body newId now none).calls
          = [Call.insert "case_competitions" payload] ∧
        (postCaseCompetitions db body newId now none).resp.data
          = .row (payload ++ [("id", newId), ("created_at", .vstr now)])) ∧
      getField (dataRow (postCaseCompetitions db body newId now none).resp.data)
        "competition_name" = some cn ∧
      getField (dataRow (postCaseCompetitions db body newId now none).resp.data) "id"
        = some newId ∧
      getField (dataRow (postCaseCompetitions db body newId now none).resp.data) "created_at"
        = some (.vstr now)) ∧
    (∀ (db : Database) (body : Row) (newId : Value) (now : String) (e : Option SbErr),
      getField body "competition_name" = none →
      postCaseCompetitions db body newId now e
        = ⟨fail400 "Competition name is required", db, []⟩) := by
  refine ⟨?_, ?_, ?_, ?_, ?_, ?_, ?_, ?_, ?_, ?_, ?_, ?_, ?_, ?_, ?_, ?_, ?_, ?_, ?_, ?_, ?_,
    ?_, ?_, ?_, ?_, ?_, ?_, ?_⟩
  · intro db body newId now p c hp htp hc htc
    simp [postTodos, hp, hc, truthyOpt, htp, htc, createOne, ok, dataRow, getField, reqField,
      getField_optField_append]
  · intro db body newId now e h
    rcases h with h | h <;> simp [postTodos, h, truthyOpt]
  · intro db body newId now p nm hp htp hn htn
    simp [postHabits, hp, hn, truthyOpt, htp, htn, createOne, ok, dataRow, getField, reqField,
      getField_optField_append]
  · intro db body newId now e h
    rcases h with h | h <;> simp [postHabits, h, truthyOpt]
  · intro db body newId now hid d hh hth hd htd
    simp [postHabitEntries, hh, hd, truthyOpt, hth, htd, createOne, ok, dataRow, getField,
      reqField, getField_optField_append]
  · intro db body newId now e h
    rcases h with h | h <;> simp [postHabitEntries, h, truthyOpt]
  · intro db body newId now d hd htd
    simp [postDailyLogsPiyush, hd, truthyOpt, htd, createOne, ok, dataRow, getField, reqField,
      getField_optField_append]
  · intro db body newId now e h
    simp [postDailyLogsPiyush, h, truthyOpt]
  · intro db body newId now d hd htd
    simp [postDailyLogsShruti, hd, truthyOpt, htd, createOne, ok, dataRow, getField, reqField,
      getField_optField_append]
  · intro db body newId now e h
    simp [postDailyLogsShruti, h, truthyOpt]
  · intro db body newId now pf cn d hpf htpf hcn htcn hd htd
    simp [postContestLogs, hpf, hcn, hd, truthyOpt, htpf, htcn, htd, createOne, ok, dataRow,
      getField, reqField, getField_optField_append]
  · intro db body newId now e h
    rcases h with h | h | h <;> simp [postContestLogs, h, truthyOpt]
  · intro db body newId now q hq htq
    simp [postBlind75, hq, truthyOpt, htq, createOne, ok, dataRow, getField, reqField,
      getField_optField_append]
  · intro db body newId now e h
    simp [postBlind75, h, truthyOpt]
  · intro db body newId now p cn pf hp htp hcn htcn hpf htpf
    simp [postCourses, hp, hcn, hpf, truthyOpt, htp, htcn, htpf, createOne, ok, dataRow,
      getField, reqField, getField_optField_append]
  · intro db body newId now e h
    rcases h with h | h | h <;> simp [postCourses, h, truthyOpt]
  · intro db body newId now p t i d hp htp ht htt hi hti hd htd
    simp [postCertificates, hp, ht, hi, hd, truthyOpt, htp, htt, hti, htd, createOne, ok,
      dataRow, getField, reqField, getField_optField_append]
  · intro db body newId now e h
    rcases h with h | h | h | h <;> simp [postCertificates, h, truthyOpt]
  · intro db body newId now p pn hp htp hpn htpn
    simp [postProjects, hp, hpn, truthyOpt, htp, htpn, createOne, ok, dataRow, getField,
      reqField, getField_optField_append]
  · intro db body newId now e h
    rcases h with h | h <;> simp [postProjects, h, truthyOpt]
  · intro db body newId now p sn hp htp hsn htsn
    simp [postSkills, hp, hsn, truthyOpt, htp, htsn, createOne, ok, dataRow, getField,
      reqField, getField_optField_append]
  · intro db body newId now e h
    rcases h with h | h <;> simp [postSkills, h, truthyOpt]
  · intro db body newId now t d ht htt hd htd
    simp [postCaseStudies, ht, hd, truthyOpt, htt, htd, createOne, ok, dataRow, getField,
      reqField, getField_optField_append]
  · intro db body newId now e h
    rcases h with h | h <;> simp [postCaseStudies, h, truthyOpt]
  · intro db body newId now tp htp2 http
    simp [postGuesstimates, htp2, truthyOpt, http, createOne, ok, dataRow, getField, reqField,
      getField_optField_append]
  · intro db body newId now e h
    simp [postGuesstimates, h, truthyOpt]
  · intro db body newId now cn hcn htcn
    simp [postCaseCompetitions, hcn, truthyOpt, htcn, createOne, ok, dataRow, getField,
      reqField, getField_optField_append]
  · intro db body newId now e h
    simp [postCaseCompetitions, h, truthyOpt]

/-- Concrete instantiation of the create theorem: each create endpoint, fed a
body holding exactly its required fields, answers 200; fed an empty body, it
answers the validation failure without touching the state or issuing a
call. -/
theorem create_inserts_and_validates_witness :
    (postTodos {} [("profile", .vstr "a"), ("content", .vstr "x")] (.vnum 1) "T0" none).resp.status = 200 ∧
    postTodos {} [] (.vnum 1) "T0" none = ⟨fail400 "Profile and content are required", {}, []⟩ ∧
    (postHabits {} [("profile", .vstr "a"), ("name", .vstr "gym")] (.vnum 1) "T0" none).resp.status = 200 ∧
    postHabits {} [] (.vnum 1) "T0" none = ⟨fail400 "Profile and name are required", {}, []⟩ ∧
    (postHabitEntries {} [("habit_id", .vnum 1), ("date", .vstr "2026-01-01")] (.vnum 1) "T0" none).resp.status = 200 ∧
    postHabitEntries {} [] (.vnum 1) "T0" none = ⟨fail400 "habit_id and date are required", {}, []⟩ ∧
    (postDailyLogsPiyush {} [("date", .vstr "2026-01-01")] (.vnum 1) "T0" none).resp.status = 200 ∧
    postDailyLogsPiyush {} [] (.vnum 1) "T0" none = ⟨fail400 "Date is required", {}, []⟩ ∧
    (postDailyLogsShruti {} [("date", .vstr "2026-01-01")] (.vnum 1) "T0" none).resp.status = 200 ∧
    postDailyLogsShruti {} [] (.vnum 1) "T0" none = ⟨fail400 "Date is required", {}, []⟩ ∧
    (postContestLogs {} [("platform", .vstr "cf"), ("contest_name", .vstr "r1"), ("date", .vstr "2026-01-01")] (.vnum 1) "T0" none).resp.status = 200 ∧
    postContestLogs {} [] (.vnum 1) "T0" none = ⟨fail400 "Platform, contest_name, and date are required", {}, []⟩ ∧
    (postBlind75 {} [("question_name", .vstr "two-sum")] (.vnum 1) "T0" none).resp.status = 200 ∧
    postBlind75 {} [] (.vnum 1) "T0" none = ⟨fail400 "Question name is required", {}, []⟩ ∧
    (postCourses {} [("profile", .vstr "a"), ("course_name", .vstr "c"), ("platform", .vstr "u")] (.vnum 1) "T0" none).resp.status = 200 ∧
    postCourses {} [] (.vnum 1) "T0" none = ⟨fail400 "Profile, course_name, and platform are required", {}, []⟩ ∧
    (postCertificates {} [("profile", .vstr "a"), ("title", .vstr "t"), ("issuer", .vstr "i"), ("date", .vstr "2026-01-01")] (.vnum 1) "T0" none).resp.status = 200 ∧
    postCertificates {} [] (.vnum 1) "T0" none = ⟨fail400 "Profile, title, issuer, and date are required", {}, []⟩ ∧
    (postProjects {} [("profile", .vstr "a"), ("project_name", .vstr "p1")] (.vnum 1) "T0" none).resp.status = 200 ∧
    postProjects {} [] (.vnum 1) "T0" none = ⟨fail400 "Profile and project_name are required", {}, []⟩ ∧
    (postSkills {} [("profile", .vstr "a"), ("skill_name", .vstr "sql")] (.vnum 1) "T0" none).resp.status = 200 ∧
    postSkills {} [] (.vnum 1) "T0" none = ⟨fail400 "Profile and skill_name are required", {}, []⟩ ∧
    (postCaseStudies {} [("title", .vstr "t"), ("date", .vstr "2026-01-01")] (.vnum 1) "T0" none).resp.status = 200 ∧
    postCaseStudies {} [] (.vnum 1) "T0" none = ⟨fail400 "Title and date are required", {}, []⟩ ∧
    (postGuesstimates {} [("topic", .vstr "mkts")] (.vnum 1) "T0" none).resp.status = 200 ∧
    postGuesstimates {} [] (.vnum 1) "T0" none = ⟨fail400 "Topic is required", {}, []⟩ ∧
    (postCaseCompetitions {} [("competition_name", .vstr "x")] (.vnum 1) "T0" none).resp.status = 200 ∧
    postCaseCompetitions {} [] (.vnum 1) "T0" none = ⟨fail400 "Competition name is required", {}, []⟩ := by
  obtain ⟨s1, v1, s2, v2, s3, v3, s4, v4, s5, v5, s6, v6, s7, v7, s8, v8, s9, v9, s10, v10,
    s11, v11, s12, v12, s13, v13, s14, v14⟩ := create_inserts_and_validates
  exact ⟨(s1 {} _ (.vnum 1) "T0" (.vstr "a") (.vstr "x") (by decide) (by decide) (by decide) (by decide)).1,
    v1 {} [] (.vnum 1) "T0" none (Or.inl (by decide)),
    (s2 {} _ (.vnum 1) "T0" (.vstr "a") (.vstr "gym") (by decide) (by decide) (by decide) (by decide)).1,
    v2 {} [] (.vnum 1) "T0" none (Or.inl (by decide)),
    (s3 {} _ (.vnum 1) "T0" (.vnum 1) (.vstr "2026-01-01") (by decide) (by decide) (by decide) (by decide)).1,
    v3 {} [] (.vnum 1) "T0" none (Or.inl (by decide)),
    (s4 {} _ (.vnum 1) "T0" (.vstr "2026-01-01") (by decide) (by decide)).1,
    v4 {} [] (.vnum 1) "T0" none (by decide),
    (s5 {} _ (.vnum 1) "T0" (.vstr "2026-01-01") (by decide) (by decide)).1,
    v5 {} [] (.vnum 1) "T0" none (by decide),
    (s6 {} _ (.vnum 1) "T0" (.vstr "cf") (.vstr "r1") (.vstr "2026-01-01") (by decide) (by decide) (by decide) (by decide) (by decide) (by decide)).1,
    v6 {} [] (.vnum 1) "T0" none (Or.inl (by decide)),
    (s7 {} _ (.vnum 1) "T0" (.vstr "two-sum") (by decide) (by decide)).1,
    v7 {} [] (.vnum 1) "T0" none (by decide),
    (s8 {} _ (.vnum 1) "T0" (.vstr "a") (.vstr "c") (.vstr "u") (by decide) (by decide) (by decide) (by decide) (by decide) (by decide)).1,
    v8 {} [] (.vnum 1) "T0" none (Or.inl (by decide)),
    (s9 {} _ (.vnum 1) "T0" (.vstr "a") (.vstr "t") (.vstr "i") (.vstr "2026-01-01") (by decide) (by decide) (by decide) (by decide) (by decide) (by decide) (by decide) (by decide)).1,
    v9 {} [] (.vnum 1) "T0" none (Or.inl (by decide)),
    (s10 {} _ (.vnum 1) "T0" (.vstr "a") (.vstr "p1") (by decide) (by decide) (by decide) (by decide)).1,
    v10 {} [] (.vnum 1) "T0" none (Or.inl (by decide)),
    (s11 {} _ (.vnum 1) "T0" (.vstr "a") (.vstr "sql") (by decide) (by decide) (by decide) (by decide)).1,
    v11 {} [] (.vnum 1) "T0" none (Or.inl (by decide)),
    (s12 {} _ (.vnum 1) "T0" (.vstr "t") (.vstr "2026-01-01") (by decide) (by decide) (by decide) (by decide)).1,
    v12 {} [] (.vnum 1) "T0" none (Or.inl (by decide)),
    (s13 {} _ (.vnum 1) "T0" (.vstr "mkts") (by decide) (by decide)).1,
    v13 {} [] (.vnum 1) "T0" none (by decide),
    (s14 {} _ (.vnum 1) "T0" (.vstr "x") (by decide) (by decide)).1,
    v14 {} [] (.vnum 1) "T0" none (by decide)⟩

/-! ### Claim C1 -/

theorem matching_length_updateRows (tbl : List Row) (key : String) (val qv : Value) (u : Row)
    (hu : getField u key = none) :
    (matching (updateRows tbl key val u) key qv).length = (matching tbl key qv).length := by
  induction tbl with
  | nil => rfl
  | cons r rest ih =>
    have hpres : getField (if getField r key == some val then applyUpdates r u else r) key
        = getField r key := by
      by_cases hm : getField r key == some val
      · simp [hm, getField_applyUpdates_of_none _ _ _ hu]
      · simp [hm]
    simp only [updateRows, List.map_cons, matching, List.filter_cons] at *
    rw [hpres]
    by_cases hq : getField r key == some qv
    · simp only [hq, if_true, List.length_cons]
      exact congrArg Nat.succ ih
    · simp only [hq, if_false]
      exact ih

theorem matching_append (tbl1 tbl2 : List Row) (key : String) (qv : Value) :
    matching (tbl1 ++ tbl2) key qv = matching tbl1 key qv ++ matching tbl2 key qv := by
  simp [matching, List.filter_append]

/-- Effect of one single-writer, backend-error-free PUT /cp-ratings/:platform
on the number of rows of a platform: the count of the requested platform
becomes positive but stays at most one when it was at most one, and the
count of every other platform is unchanged; stated for any request body
carrying a rating. -/
theorem putCpRatings_count_le_one (db : Database) (p : String) (body : Row) (rating newId : Value)
    (now : String) (hr : getField body "rating" = some rating) (q : String)
    (hq : countPlatform db q ≤ 1) :
    countPlatform (putCpRatings db p body newId now none none none).db q ≤ 1 := by
  rcases hm : matching db.cp_ratings "platform" (.vstr p) with _ | ⟨r, _ | ⟨r2, rest⟩⟩
  · by_cases hpq : p = q
    · subst hpq
      simp only [putCpRatings, hr, hm, createOne, countPlatform, matching_append,
        List.cons_append, List.nil_append]
      simp [matching, List.filter, getField]
    · simp only [putCpRatings, hr, hm, createOne, countPlatform, matching_append,
        List.cons_append, List.nil_append]
      have hrow : matching [[("platform", Value.vstr p), ("rating", rating),
          ("id", newId), ("created_at", Value.vstr now)]] "platform" (.vstr q) = [] := by
        simp [matching, getField, hpq]
      rw [hrow]
      simpa [countPlatform] using hq
  · simp only [putCpRatings, hr, hm, countPlatform, updateByKey]
    rw [matching_length_updateRows db.cp_ratings "platform" (.vstr p) (.vstr q)
      [("rating", rating), ("updated_at", .vstr now)] (by simp [getField])]
    simpa [countPlatform] using hq
  · by_cases hpq : p = q
    · subst hpq
      have hlen : (matching db.cp_ratings "platform" (.vstr p)).length ≤ 1 := hq
      rw [hm] at hlen
      simp at hlen
    · simp only [putCpRatings, hr, hm, createOne, countPlatform, matching_append,
        List.cons_append, List.nil_append]
      have hrow : matching [[("platform", Value.vstr p), ("rating", rating),
          ("id", newId), ("created_at", Value.vstr now)]] "platform" (.vstr q) = [] := by
        simp [matching, getField, hpq]
      rw [hrow]
      simpa [countPlatform] using hq

/-- Claim C1: PUT /cp-ratings/:platform with a rating in the body, executed
single-writer with its backend calls succeeding, inserts a new platform,
rating row when no row with that platform exists; when exactly one row with
that platform exists it updates the rating of that row and stamps its
updated_at timestamp, issuing no insert; one request keeps every platform
count at most one; and over every single-writer sequence of such requests
from a state with at most one row per platform, the table never holds two
rows for the same platform. -/
theorem cp_rating_upsert_no_duplicates :
    (∀ (db : Database) (p : String) (body : Row) (rating newId : Value) (now : String),
      getField body "rating" = some rating →
      matching db.cp_ratings "platform" (.vstr p) = [] →
      (putCpRatings db p body newId now none none none).resp
        = ok (.row [("platform", .vstr p), ("rating", rating), ("id", newId),
            ("created_at", .vstr now)]) ∧
      (putCpRatings db p body newId now none none none).db.cp_ratings
        = db.cp_ratings ++ [[("platform", .vstr p), ("rating", rating), ("id", newId),
            ("created_at", .vstr now)]] ∧
      countPlatform (putCpRatings db p body newId now none none none).db p = 1 ∧
      (putCpRatings db p body newId now none none none).calls
        = [Call.select "cp_ratings",
           Call.insert "cp_ratings" [("platform", .vstr p), ("rating", rating)]]) ∧
    (∀ (db : Database) (p : String) (body : Row) (rating newId : Value) (now : String) (r : Row),
      getField body "rating" = some rating →
      matching db.cp_ratings "platform" (.vstr p) = [r] →
      (putCpRatings db p body newId now none none none).resp
        = ok (.row (applyUpdates r [("rating", rating), ("updated_at", .vstr now)])) ∧
      getField (dataRow (putCpRatings db p body newId now none none none).resp.data) "rating"
        = some rating ∧
      getField (dataRow (putCpRatings db p body newId now none none none).resp.data)
        "updated_at" = some (.vstr now) ∧
      countPlatform (putCpRatings db p body newId now none none none).db p = 1 ∧
      (putCpRatings db p body newId now none none none).calls
        = [Call.select "cp_ratings",
           Call.update "cp_ratings" "platform" (.vstr p)
             [("rating", rating), ("updated_at", .vstr now)]]) ∧
    (∀ (db : Database) (p : String) (body : Row) (rating newId : Value) (now : String)
        (q : String),
      getField body "rating" = some rating → countPlatform db q ≤ 1 →
      countPlatform (putCpRatings db p body newId now none none none).db q ≤ 1) ∧
    (∀ (reqs : List (String × Value × Value × String)) (db : Database),
      (∀ q, countPlatform db q ≤ 1) →
      ∀ q, countPlatform (runCpPuts db reqs) q ≤ 1) := by
  refine ⟨?_, ?_, ?_, ?_⟩
  · intro db p body rating newId now hr hm
    refine ⟨?_, ?_, ?_, ?_⟩
    · simp [putCpRatings, hr, hm, createOne]
    · simp [putCpRatings, hr, hm, createOne]
    · simp only [putCpRatings, hr, hm, createOne, countPlatform, matching_append,
        List.cons_append, List.nil_append]
      simp [matching, List.filter, getField]
    · simp [putCpRatings, hr, hm, createOne]
  · intro db p body rating newId now r hr hm
    refine ⟨?_, ?_, ?_, ?_, ?_⟩
    · simp [putCpRatings, hr, hm, updateByKey_matched _ _ _ _ _ _ hm]
    · simp only [putCpRatings, hr, hm, updateByKey_matched _ _ _ _ _ _ hm, ok, dataRow]
      exact getField_applyUpdates_of_some _ _ _ _ (by simp) (by simp [getField])
    · simp only [putCpRatings, hr, hm, updateByKey_matched _ _ _ _ _ _ hm, ok, dataRow]
      exact getField_applyUpdates_of_some _ _ _ _ (by simp) (by simp [getField])
    · simp only [putCpRatings, hr, hm, updateByKey_matched _ _ _ _ _ _ hm, countPlatform]
      rw [matching_length_updateRows db.cp_ratings "platform" (.vstr p) (.vstr p)
        [("rating", rating), ("updated_at", .vstr now)] (by simp [getField])]
      simp [hm]
    · simp [putCpRatings, hr, hm, updateByKey_matched _ _ _ _ _ _ hm]
  · intro db p body rating newId now q hr hq
    exact putCpRatings_count_le_one db p body rating newId now hr q hq
  · intro reqs
    induction reqs with
    | nil => intro db h q; exact h q
    | cons req rest ih =>
      intro db h q
      obtain ⟨p, rating, newId, now⟩ := req
      exact ih _ (fun q2 => putCpRatings_count_le_one db p [("rating", rating)] rating newId now
        rfl q2 (h q2)) q

/-- Concrete instantiation of the cp-rating upsert theorem: the first PUT on
the empty table inserts the row, the second PUT on a one-row table updates
it in place keeping a single row, one step preserves the at-most-one bound,
and a two-request single-writer sequence from the empty table leaves at most
one codeforces row. -/
theorem cp_rating_upsert_no_duplicates_witness :
    (putCpRatings {} "codeforces" [("rating", .vnum 1500)] (.vnum 1) "T0" none none none).resp
      = ok (.row [("platform", .vstr "codeforces"), ("rating", .vnum 1500), ("id", .vnum 1),
          ("created_at", .vstr "T0")]) ∧
    getField (dataRow (putCpRatings dbCp "codeforces" [("rating", .vnum 1501)] (.vnum 9) "T1"
      none none none).resp.data) "rating" = some (.vnum 1501) ∧
    getField (dataRow (putCpRatings dbCp "codeforces" [("rating", .vnum 1501)] (.vnum 9) "T1"
      none none none).resp.data) "updated_at" = some (.vstr "T1") ∧
    countPlatform (putCpRatings dbCp "codeforces" [("rating", .vnum 1501)] (.vnum 9) "T1"
      none none none).db "codeforces" = 1 ∧
    countPlatform (putCpRatings {} "codeforces" [("rating", .vnum 1500)] (.vnum 1) "T0"
      none none none).db "codeforces" ≤ 1 ∧
    countPlatform (runCpPuts {} [("codeforces", .vnum 1500, .vnum 1, "T0"),
      ("codeforces", .vnum 1600, .vnum 2, "T1")]) "codeforces" ≤ 1 := by
  obtain ⟨tIns, tUpd, tStep, tSeq⟩ := cp_rating_upsert_no_duplicates
  exact ⟨(tIns {} "codeforces" _ (.vnum 1500) (.vnum 1) "T0" (by decide) (by decide)).1,
    (tUpd dbCp "codeforces" _ (.vnum 1501) (.vnum 9) "T1" cpRow1 (by decide) (by decide)).2.1,
    (tUpd dbCp "codeforces" _ (.vnum 1501) (.vnum 9) "T1" cpRow1 (by decide) (by decide)).2.2.1,
    (tUpd dbCp "codeforces" _ (.vnum 1501) (.vnum 9) "T1" cpRow1 (by decide) (by decide)).2.2.2.1,
    tStep {} "codeforces" _ (.vnum 1500) (.vnum 1) "T0" "codeforces" (by decide) (by decide),
    tSeq [("codeforces", .vnum 1500, .vnum 1, "T0"), ("codeforces", .vnum 1600, .vnum 2, "T1")]
      {} (fun q => by simp [countPlatform, matching]) "codeforces"⟩

/-! ### Claim C9 -/

theorem string_eq_of_data_eq (s t : String) (h : s.data = t.data) : s = t := by
  cases s
  cases t
  exact congrArg String.mk h

theorem digitChar_inj_lt : ∀ a, a < 10 → ∀ b, b < 10 →
    Nat.digitChar a = Nat.digitChar b → a = b := by
  decide

theorem map_digitChar_inj : ∀ l1 l2 : List Nat, (∀ x ∈ l1, x < 10) → (∀ x ∈ l2, x < 10) →
    l1.map Nat.digitChar = l2.map Nat.digitChar → l1 = l2 := by
  intro l1
  induction l1 with
  | nil =>
    intro l2 _ _ h
    cases l2 with
    | nil => rfl
    | cons y ys => simp at h
  | cons x xs ih =>
    intro l2 h1 h2 h
    cases l2 with
    | nil => simp at h
    | cons y ys =>
      simp only [List.map_cons, List.cons.injEq] at h
      have hx : x = y := digitChar_inj_lt x (h1 x (by simp)) y (h2 y (by simp)) h.1
      have hxs : xs = ys := ih ys (fun z hz => h1 z (by simp [hz])) (fun z hz => h2 z (by simp [hz])) h.2
      rw [hx, hxs]

theorem decDigitsAux_eq_digits (fuel : Nat) : ∀ n : Nat, n ≤ fuel →
    decDigitsAux fuel n = Nat.digits 10 n := by
  induction fuel with
  | zero =>
    intro n hn
    have h0 : n = 0 := Nat.le_zero.mp hn
    simp [decDigitsAux, h0]
  | succ fuel2 ih =>
    intro n hn
    by_cases h0 : n = 0
    · simp [decDigitsAux, h0]
    · rw [decDigitsAux, if_neg h0,
        Nat.digits_def' (by norm_num : (1 : Nat) < 10) (Nat.pos_of_ne_zero h0),
        ih (n / 10) (by
          have hlt : n / 10 < n := Nat.div_lt_self (Nat.pos_of_ne_zero h0) (by norm_num)
          exact Nat.lt_succ_iff.mp (Nat.lt_of_lt_of_le hlt hn))]

theorem decStr_eq_digits (n : Nat) (hn : n ≠ 0) :
    decStr n = ((Nat.digits 10 n).reverse.map Nat.digitChar).asString := by
  rw [decStr, if_neg hn, decDigitsAux_eq_digits n n (Nat.le_refl n)]

theorem decStr_render_ne_zero (n : Nat) (hn : n ≠ 0) :
    ((Nat.digits 10 n).reverse.map Nat.digitChar).asString ≠ "0" := by
  intro h
  have hd : (Nat.digits 10 n).reverse.map Nat.digitChar = ['0'] := congrArg String.data h
  have h1 : (Nat.digits 10 n).reverse = [0] := by
    have := map_digitChar_inj (Nat.digits 10 n).reverse [0]
      (fun x hx => Nat.digits_lt_base (by norm_num) (List.mem_reverse.mp hx))
      (by decide) (by simpa using hd)
    exact this
  have h2 : Nat.digits 10 n = [0] := by
    have := congrArg List.reverse h1
    simpa using this
  have h3 : n = 0 := by
    have := Nat.ofDigits_digits 10 n
    rw [h2] at this
    simpa [Nat.ofDigits] using this.symm
  exact hn h3

theorem decStr_inj : ∀ {m n : Nat}, decStr m = decStr n → m = n := by
  intro m n h
  by_cases hm : m = 0 <;> by_cases hn : n = 0
  · rw [hm, hn]
  · subst hm
    rw [decStr_eq_digits n hn] at h
    simp only [decStr, if_pos rfl] at h
    exact absurd h.symm (decStr_render_ne_zero n hn)
  · subst hn
    rw [decStr_eq_digits m hm] at h
    simp only [decStr, if_pos rfl] at h
    exact absurd h (decStr_render_ne_zero m hm)
  · rw [decStr_eq_digits m hm, decStr_eq_digits n hn] at h
    have hd : (Nat.digits 10 m).reverse.map Nat.digitChar
        = (Nat.digits 10 n).reverse.map Nat.digitChar := congrArg String.data h
    have h1 := map_digitChar_inj _ _
      (fun x hx => Nat.digits_lt_base (by norm_num) (List.mem_reverse.mp hx))
      (fun x hx => Nat.digits_lt_base (by norm_num) (List.mem_reverse.mp hx)) hd
    have h2 : Nat.digits 10 m = Nat.digits 10 n := by
      have := congrArg List.reverse h1
      simpa using this
    exact Nat.digits_inj_iff.mp h2

theorem strAppend_cancel_left (a s1 s2 : String) (h : a ++ s1 = a ++ s2) : s1 = s2 := by
  apply string_eq_of_data_eq
  have hd := congrArg String.data h
  simp only [String.data_append] at hd
  exact List.append_cancel_left hd

theorem strAppend_cancel_right (a s1 s2 : String) (h : s1 ++ a = s2 ++ a) : s1 = s2 := by
  apply string_eq_of_data_eq
  have hd := congrArg String.data h
  simp only [String.data_append] at hd
  exact List.append_cancel_right hd

theorem strAppend_inner_cancel (a b s1 s2 : String) (h : a ++ s1 ++ b = a ++ s2 ++ b) :
    s1 = s2 :=
  strAppend_cancel_left a s1 s2 (strAppend_cancel_right b (a ++ s1) (a ++ s2) h)

theorem certificatePath_assoc (p : String) (t : Nat) (f : String) :
    certificatePath p t f = (p ++ "/certificates/") ++ decStr t ++ ("-" ++ f) := by
  simp [certificatePath, String.append_assoc]

theorem caseCompetitionPath_assoc (t : Nat) (f : String) :
    caseCompetitionPath t f = "case-competitions/" ++ decStr t ++ ("-" ++ f) := by
  simp [caseCompetitionPath, String.append_assoc]

theorem certificatePath_inj (p f : String) {t1 t2 : Nat}
    (h : certificatePath p t1 f = certificatePath p t2 f) : t1 = t2 := by
  rw [certificatePath_assoc, certificatePath_assoc] at h
  exact decStr_inj (strAppend_inner_cancel _ _ _ _ h)

theorem caseCompetitionPath_inj (f : String) {t1 t2 : Nat}
    (h : caseCompetitionPath t1 f = caseCompetitionPath t2 f) : t1 = t2 := by
  rw [caseCompetitionPath_assoc, caseCompetitionPath_assoc] at h
  exact decStr_inj (strAppend_inner_cancel _ _ _ _ h)

theorem getPublicUrl_inj (b bucket : String) {p1 p2 : String}
    (h : getPublicUrl b bucket p1 = getPublicUrl b bucket p2) : p1 = p2 := by
  unfold getPublicUrl at h
  exact strAppend_cancel_left _ _ _ h

/-- Claim C9: each upload handler stores the decoded payload at the
namespace path followed by the millisecond timestamp, a hyphen and the
original file name; overwrite on collision is disallowed, a path collision
surfacing as an error with the store unchanged; two uploads of the same file
name at distinct milliseconds produce distinct stored paths and distinct
public URLs; and the success response carries the public URL and the
storage path. -/
theorem upload_paths_timestamped_and_collision_safe :
    (∀ (st : StorageState) (baseUrl : String) (body : Row) (t : Nat) (f p64 pr : String),
      getField body "fileName" = some (.vstr f) → (f ≠ "") →
      getField body "fileBase64" = some (.vstr p64) → (p64 ≠ "") →
      getField body "profile" = some (.vstr pr) → (pr ≠ "") →
      storageHas st "certificates" (certificatePath pr t f) = false →
      (uploadCertificate st baseUrl body t none).resp
        = ok (.row [("file_url",
              .vstr (getPublicUrl baseUrl "certificates" (certificatePath pr t f))),
            ("path", .vstr (certificatePath pr t f))]) ∧
      (uploadCertificate st baseUrl body t none).storage.objects
        = st.objects ++ [("certificates", certificatePath pr t f)] ∧
      (uploadCertificate st baseUrl body t none).calls
        = [Call.upload "certificates" (certificatePath pr t f)]) ∧
    (∀ (st : StorageState) (baseUrl : String) (body : Row) (t : Nat) (f p64 pr : String),
      getField body "fileName" = some (.vstr f) → (f ≠ "") →
      getField body "fileBase64" = some (.vstr p64) → (p64 ≠ "") →
      getField body "profile" = some (.vstr pr) → (pr ≠ "") →
      storageHas st "certificates" (certificatePath pr t f) = true →
      (uploadCertificate st baseUrl body t none).resp = fail500 duplicateErr.message ∧
      (uploadCertificate st baseUrl body t none).storage = st) ∧
    (∀ (pr f baseUrl : String) (t1 t2 : Nat), t1 ≠ t2 →
      certificatePath pr t1 f ≠ certificatePath pr t2 f ∧
      getPublicUrl baseUrl "certificates" (certificatePath pr t1 f)
        ≠ getPublicUrl baseUrl "certificates" (certificatePath pr t2 f)) ∧
    (∀ (st : StorageState) (baseUrl : String) (body : Row) (t : Nat) (f p64 : String),
      getField body "fileName" = some (.vstr f) → (f ≠ "") →
      getField body "fileBase64" = some (.vstr p64) → (p64 ≠ "") →
      storageHas st "documents" (caseCompetitionPath t f) = false →
      (uploadCaseCompetitionDoc st baseUrl body t none).resp
        = ok (.row [("file_url", .vstr (getPublicUrl baseUrl "documents" (caseCompetitionPath t f))),
            ("path", .vstr (caseCompetitionPath t f))]) ∧
      (uploadCaseCompetitionDoc st baseUrl body t none).storage.objects
        = st.objects ++ [("documents", caseCompetitionPath t f)] ∧
      (uploadCaseCompetitionDoc st baseUrl body t none).calls
        = [Call.upload "documents" (caseCompetitionPath t f)]) ∧
    (∀ (st : StorageState) (baseUrl : String) (body : Row) (t : Nat) (f p64 : String),
      getField body "fileName" = some (.vstr f) → (f ≠ "") →
      getField body "fileBase64" = some (.vstr p64) → (p64 ≠ "") →
      storageHas st "documents" (caseCompetitionPath t f) = true →
      (uploadCaseCompetitionDoc st baseUrl body t none).resp = fail500 duplicateErr.message ∧
      (uploadCaseCompetitionDoc st baseUrl body t none).storage = st) ∧
    (∀ (f baseUrl : String) (t1 t2 : Nat), t1 ≠ t2 →
      caseCompetitionPath t1 f ≠ caseCompetitionPath t2 f ∧
      getPublicUrl baseUrl "documents" (caseCompetitionPath t1 f)
        ≠ getPublicUrl baseUrl "documents" (caseCompetitionPath t2 f)) := by
  refine ⟨?_, ?_, ?_, ?_, ?_, ?_⟩
  · intro st baseUrl body t f p64 pr hf hfne hb hbne hp hpne hcol
    refine ⟨?_, ?_, ?_⟩ <;>
      simp [uploadCertificate, hf, hb, hp, truthyOpt, truthy, hfne, hbne, hpne, reqField,
        vToString, uploadObject, hcol]
  · intro st baseUrl body t f p64 pr hf hfne hb hbne hp hpne hcol
    refine ⟨?_, ?_⟩ <;>
      simp [uploadCertificate, hf, hb, hp, truthyOpt, truthy, hfne, hbne, hpne, reqField,
        vToString, uploadObject, hcol]
  · intro pr f baseUrl t1 t2 ht
    refine ⟨fun h => ht (certificatePath_inj pr f h), fun h => ht (certificatePath_inj pr f
      (getPublicUrl_inj baseUrl "certificates" h))⟩
  · intro st baseUrl body t f p64 hf hfne hb hbne hcol
    refine ⟨?_, ?_, ?_⟩ <;>
      simp [uploadCaseCompetitionDoc, hf, hb, truthyOpt, truthy, hfne, hbne, reqField,
        vToString, uploadObject, hcol]
  · intro st baseUrl body t f p64 hf hfne hb hbne hcol
    refine ⟨?_, ?_⟩ <;>
      simp [uploadCaseCompetitionDoc, hf, hb, truthyOpt, truthy, hfne, hbne, reqField,
        vToString, uploadObject, hcol]
  · intro f baseUrl t1 t2 ht
    refine ⟨fun h => ht (caseCompetitionPath_inj f h), fun h => ht (caseCompetitionPath_inj f
      (getPublicUrl_inj baseUrl "documents" h))⟩

/-- Concrete instantiation of the upload theorem: a fresh upload stores the
timestamped path and answers its public URL; re-uploading to the same path
fails with the duplicate error leaving the store unchanged; and timestamps 5
and 6 give distinct paths and URLs. -/
theorem upload_paths_timestamped_and_collision_safe_witness :
    (uploadCertificate {} "https://x" [("fileName", .vstr "a.pdf"), ("fileBase64", .vstr "QQ=="),
      ("profile", .vstr "p")] 5 none).resp
      = ok (.row [("file_url",
          .vstr (getPublicUrl "https://x" "certificates" (certificatePath "p" 5 "a.pdf"))),
          ("path", .vstr (certificatePath "p" 5 "a.pdf"))]) ∧
    (uploadCertificate ⟨[("certificates", "p/certificates/5-a.pdf")]⟩ "https://x"
      [("fileName", .vstr "a.pdf"), ("fileBase64", .vstr "QQ=="), ("profile", .vstr "p")]
      5 none).resp = fail500 duplicateErr.message ∧
    certificatePath "p" 5 "a.pdf" ≠ certificatePath "p" 6 "a.pdf" ∧
    (uploadCaseCompetitionDoc {} "https://x" [("fileName", .vstr "a.pdf"),
      ("fileBase64", .vstr "QQ==")] 5 none).resp
      = ok (.row [("file_url",
          .vstr (getPublicUrl "https://x" "documents" (caseCompetitionPath 5 "a.pdf"))),
          ("path", .vstr (caseCompetitionPath 5 "a.pdf"))]) ∧
    (uploadCaseCompetitionDoc ⟨[("documents", "case-competitions/5-a.pdf")]⟩ "https://x"
      [("fileName", .vstr "a.pdf"), ("fileBase64", .vstr "QQ==")] 5 none).resp
      = fail500 duplicateErr.message ∧
    getPublicUrl "https://x" "documents" (caseCompetitionPath 5 "a.pdf")
      ≠ getPublicUrl "https://x" "documents" (caseCompetitionPath 6 "a.pdf") := by
  obtain ⟨c1, c2, c3, d1, d2, d3⟩ := upload_paths_timestamped_and_collision_safe
  exact ⟨(c1 {} "https://x" _ 5 "a.pdf" "QQ==" "p" (by decide) (by decide) (by decide)
      (by decide) (by decide) (by decide) (by decide)).1,
    (c2 ⟨[("certificates", "p/certificates/5-a.pdf")]⟩ "https://x" _ 5 "a.pdf" "QQ==" "p"
      (by decide) (by decide) (by decide) (by decide) (by decide) (by decide) (by decide)).1,
    (c3 "p" "a.pdf" "https://x" 5 6 (by decide)).1,
    (d1 {} "https://x" _ 5 "a.pdf" "QQ==" (by decide) (by decide) (by decide) (by decide)
      (by decide)).1,
    (d2 ⟨[("documents", "case-competitions/5-a.pdf")]⟩ "https://x" _ 5 "a.pdf" "QQ=="
      (by decide) (by decide) (by decide) (by decide) (by decide)).1,
    (d3 "a.pdf" "https://x" 5 6 (by decide)).2⟩


/-! ### Claim C3 -/

/-- Claim C3 as stated is refuted: the existence-check select of
PUT /cp-ratings/:platform surfaces a backend failure, but the handler
discards that error result, falls through to the insert branch, and answers
HTTP 200 success with a null error instead of a 500 carrying the message. -/
theorem backend_failure_not_propagated :
    (putCpRatings {} "codeforces" [("rating", .vnum 1500)] (.vnum 1) "T0"
      (some errBoom) none none).resp.status = 200 ∧
    (putCpRatings {} "codeforces" [("rating", .vnum 1500)] (.vnum 1) "T0"
      (some errBoom) none none).resp.success = true ∧
    (putCpRatings {} "codeforces" [("rating", .vnum 1500)] (.vnum 1) "T0"
      (some errBoom) none none).resp.error = none := by
  decide

/-- Claim C3 (amended): for every endpoint, a failure surfaced by the data
store or object store on a call whose error result the handler inspects
yields an HTTP 500 response with success false, data null and the backend
message passed through verbatim — except that the no-row-found code PGRST116
is translated where documented (the by-date lookups answer success-null and
the a2z read falls through to its insert), and except the three ignored
results: the existence-check selects of the two upsert handlers and the
entries-purge delete of habit deletion.  Validation failures yield HTTP 400
with no backend call issued; every trace is a fixed finite list in which
each call site appears at most once, so no call is retried on error. -/
theorem backend_errors_propagate :
    (∀ (db : Database) (err : SbErr), (getDailyLogsPiyush db (some err)).resp = fail500 err.message) ∧
    (∀ (db : Database) (err : SbErr), (getDailyLogsShruti db (some err)).resp = fail500 err.message) ∧
    (∀ (db : Database) (err : SbErr), (getCpRatings db (some err)).resp = fail500 err.message) ∧
    (∀ (db : Database) (err : SbErr), (getContestLogs db (some err)).resp = fail500 err.message) ∧
    (∀ (db : Database) (err : SbErr), (getBlind75 db (some err)).resp = fail500 err.message) ∧
    (∀ (db : Database) (err : SbErr), (getResumeSections db (some err)).resp = fail500 err.message) ∧
    (∀ (db : Database) (err : SbErr), (getCaseStudies db (some err)).resp = fail500 err.message) ∧
    (∀ (db : Database) (err : SbErr), (getGuesstimates db (some err)).resp = fail500 err.message) ∧
    (∀ (db : Database) (err : SbErr), (getCaseCompetitions db (some err)).resp = fail500 err.message) ∧
    (∀ (db : Database) (p? : Option String) (e : Option SbErr), queryTruthy p? = false →
      getTodos db p? e = ⟨fail400 "Profile parameter is required", db, []⟩) ∧
    (∀ (db : Database) (p? : Option String) (err : SbErr), queryTruthy p? = true →
      (getTodos db p? (some err)).resp = fail500 err.message) ∧
    (∀ (db : Database) (p? : Option String) (e : Option SbErr), queryTruthy p? = false →
      getHabits db p? e = ⟨fail400 "Profile parameter is required", db, []⟩) ∧
    (∀ (db : Database) (p? : Option String) (err : SbErr), queryTruthy p? = true →
      (getHabits db p? (some err)).resp = fail500 err.message) ∧
    (∀ (db : Database) (p? : Option String) (e : Option SbErr), queryTruthy p? = false →
      getCourses db p? e = ⟨fail400 "Profile parameter is required", db, []⟩) ∧
    (∀ (db : Database) (p? : Option String) (err : SbErr), queryTruthy p? = true →
      (getCourses db p? (some err)).resp = fail500 err.message) ∧
    (∀ (db : Database) (p? : Option String) (e : Option SbErr), queryTruthy p? = false →
      getCertificates db p? e = ⟨fail400 "Profile parameter is required", db, []⟩) ∧
    (∀ (db : Database) (p? : Option String) (err : SbErr), queryTruthy p? = true →
      (getCertificates db p? (some err)).resp = fail500 err.message) ∧
    (∀ (db : Database) (p? : Option String) (e : Option SbErr), queryTruthy p? = false →
      getProjects db p? e = ⟨fail400 "Profile parameter is required", db, []⟩) ∧
    (∀ (db : Database) (p? : Option String) (err : SbErr), queryTruthy p? = true →
      (getProjects db p? (some err)).resp = fail500 err.message) ∧
    (∀ (db : Database) (p? : Option String) (e : Option SbErr), queryTruthy p? = false →
      getSkills db p? e = ⟨fail400 "Profile parameter is required", db, []⟩) ∧
    (∀ (db : Database) (p? : Option String) (err : SbErr), queryTruthy p? = true →
      (getSkills db p? (some err)).resp = fail500 err.message) ∧
    (∀ (db : Database) (p? from? to? : Option String) (e1 e2 : Option SbErr),
      queryTruthy p? = false →
      getHabitEntries db p? from? to? e1 e2 = ⟨fail400 "Profile parameter is required", db, []⟩) ∧
    (∀ (db : Database) (p? from? to? : Option String) (err : SbErr) (e2 : Option SbErr),
      queryTruthy p? = true →
      (getHabitEntries db p? from? to? (some err) e2).resp = fail500 err.message) ∧
    (∀ (db : Database) (p? from? to? : Option String) (err : SbErr),
      queryTruthy p? = true → (habitIdsOf db (p?.getD "")).isEmpty = false →
      (getHabitEntries db p? from? to? none (some err)).resp = fail500 err.message) ∧
    (∀ (db : Database) (body : Row) (newId : Value) (now : String) (e : Option SbErr),
      (getField body "profile" = none ∨ getField body "content" = none) →
      postTodos db body newId now e = ⟨fail400 "Profile and content are required", db, []⟩) ∧
    (∀ (db : Database) (body : Row) (newId : Value) (now : String) (err : SbErr),
      truthyOpt (getField body "profile") = true →
      truthyOpt (getField body "content") = true →
      (postTodos db body newId now (some err)).resp = fail500 err.message) ∧
    (∀ (db : Database) (body : Row) (newId : Value) (now : String) (e : Option SbErr),
      (getField body "profile" = none ∨ getField body "name" = none) →
      postHabits db body newId now e = ⟨fail400 "Profile and name are required", db, []⟩) ∧
    (∀ (db : Database) (body : Row) (newId : Value) (now : String) (err : SbErr),
      truthyOpt (getField body "profile") = true →
      truthyOpt (getField body "name") = true →
      (postHabits db body newId now (some err)).resp = fail500 err.message) ∧
    (∀ (db : Database) (body : Row) (newId : Value) (now : String) (e : Option SbErr),
      (getField body "habit_id" = none ∨ getField body "date" = none) →
      postHabitEntries db body newId now e = ⟨fail400 "habit_id and date are required", db, []⟩) ∧
    (∀ (db : Database) (body : Row) (newId : Value) (now : String) (err : SbErr),
      truthyOpt (getField body "habit_id") = true →
      truthyOpt (getField body "date") = true →
      (postHabitEntries db body newId now (some err)).resp = fail500 err.message) ∧
    (∀ (db : Database) (body : Row) (newId : Value) (now : String) (e : Option SbErr),
      (getField body "date" = none) →
      postDailyLogsPiyush db body newId now e = ⟨fail400 "Date is required", db, []⟩) ∧
    (∀ (db : Database) (body : Row) (newId : Value) (now : String) (err : SbErr),
      truthyOpt (getField body "date") = true →
      (postDailyLogsPiyush db body newId now (some err)).resp = fail500 err.message) ∧
    (∀ (db : Database) (body : Row) (newId : Value) (now : String) (e : Option SbErr),
      (getField body "date" = none) →
      postDailyLogsShruti db body newId now e = ⟨fail400 "Date is required", db, []⟩) ∧
    (∀ (db : Database) (body : Row) (newId : Value) (now : String) (err : SbErr),
      truthyOpt (getField body "date") = true →
      (postDailyLogsShruti db body newId now (some err)).resp = fail500 err.message) ∧
    (∀ (db : Database) (body : Row) (newId : Value) (now : String) (e : Option SbErr),
      (getField body "platform" = none ∨ getField body "contest_name" = none ∨ getField body "date" = none) →
      postContestLogs db body newId now e = ⟨fail400 "Platform, contest_name, and date are required", db, []⟩) ∧
    (∀ (db : Database) (body : Row) (newId : Value) (now : String) (err : SbErr),
      truthyOpt (getField body "platform") = true →
      truthyOpt (getField body "contest_name") = true →
      truthyOpt (getField body "date") = true →
      (postContestLogs db body newId now (some err)).resp = fail500 err.message) ∧
    (∀ (db : Database) (body : Row) (newId : Value) (now : String) (e : Option SbErr),
      (getField body "question_name" = none) →
      postBlind75 db body newId now e = ⟨fail400 "Question name is required", db, []⟩) ∧
    (∀ (db : Database) (body : Row) (newId : Value) (now : String) (err : SbErr),
      truthyOpt (getField body "question_name") = true →
      (postBlind75 db body newId now (some err)).resp = fail500 err.message) ∧
    (∀ (db : Database) (body : Row) (newId : Value) (now : String) (e : Option SbErr),
      (getField body "profile" = none ∨ getField body "course_name" = none ∨ getField body "platform" = none) →
      postCourses db body newId now e = ⟨fail400 "Profile, course_name, and platform are required", db, []⟩) ∧
    (∀ (db : Database) (body : Row) (newId : Value) (now : String) (err : SbErr),
      truthyOpt (getField body "profile") = true →
      truthyOpt (getField body "course_name") = true →
      truthyOpt (getField body "platform") = true →
      (postCourses db body newId now (some err)).resp = fail500 err.message) ∧
    (∀ (db : Database) (body : Row) (newId : Value) (now : String) (e : Option SbErr),
      (getField body "profile" = none ∨ getField body "title" = none ∨ getField body "issuer" = none ∨ getField body "date" = none) →
      postCertificates db body newId now e = ⟨fail400 "Profile, title, issuer, and date are required", db, []⟩) ∧
    (∀ (db : Database) (body : Row) (newId : Value) (now : String) (err : SbErr),
      truthyOpt (getField body "profile") = true →
      truthyOpt (getField body "title") = true →
      truthyOpt (getField body "issuer") = true →
      truthyOpt (getField body "date") = true →
      (postCertificates db body newId now (some err)).resp = fail500 err.message) ∧
    (∀ (db : Database) (body : Row) (newId : Value) (now : String) (e : Option SbErr),
      (getField body "profile" = none ∨ getField body "project_name" = none) →
      postProjects db body newId now e = ⟨fail400 "Profile and project_name are required", db, []⟩) ∧
    (∀ (db : Database) (body : Row) (newId : Value) (now : String) (err : SbErr),
      truthyOpt (getField body "profile") = true →
      truthyOpt (getField body "project_name") = true →
      (postProjects db body newId now (some err)).resp = fail500 err.message) ∧
    (∀ (db : Database) (body : Row) (newId : Value) (now : String) (e : Option SbErr),
      (getField body "profile" = none ∨ getField body "skill_name" = none) →
      postSkills db body newId now e = ⟨fail400 "Profile and skill_name are required", db, []⟩) ∧
    (∀ (db : Database) (body : Row) (newId : Value) (now : String) (err : SbErr),
      truthyOpt (getField body "profile") = true →
      truthyOpt (getField body "skill_name") = true →
      (postSkills db body newId now (some err)).resp = fail500 err.message) ∧
    (∀ (db : Database) (body : Row) (newId : Value) (now : String) (e : Option SbErr),
      (getField body "title" = none ∨ getField body "date" = none) →
      postCaseStudies db body newId now e = ⟨fail400 "Title and date are required", db, []⟩) ∧
    (∀ (db : Database) (body : Row) (newId : Value) (now : String) (err : SbErr),
      truthyOpt (getField body "title") = true →
      truthyOpt (getField body "date") = true →
      (postCaseStudies db body newId now (some err)).resp = fail500 err.message) ∧
    (∀ (db : Database) (body : Row) (newId : Value) (now : String) (e : Option SbErr),
      (getField body "topic" = none) →
      postGuesstimates db body newId now e = ⟨fail400 "Topic is required", db, []⟩) ∧
    (∀ (db : Database) (body : Row) (newId : Value) (now : String) (err : SbErr),
      truthyOpt (getField body "topic") = true →
      (postGuesstimates db body newId now (some err)).resp = fail500 err.message) ∧
    (∀ (db : Database) (body : Row) (newId : Value) (now : String) (e : Option SbErr),
      (getField body "competition_name" = none) →
      postCaseCompetitions db body newId now e = ⟨fail400 "Competition name is required", db, []⟩) ∧
    (∀ (db : Database) (body : Row) (newId : Value) (now : String) (err : SbErr),
      truthyOpt (getField body "competition_name") = true →
      (postCaseCompetitions db body newId now (some err)).resp = fail500 err.message) ∧
    (∀ (db : Database) (idv : Value) (u : Row) (err : SbErr),
      (putTodos db idv u (some err)).resp = fail500 err.message) ∧
    (∀ (db : Database) (idv : Value) (u : Row) (err : SbErr),
      (putHabits db idv u (some err)).resp = fail500 err.message) ∧
    (∀ (db : Database) (idv : Value) (u : Row) (err : SbErr),
      (putHabitEntries db idv u (some err)).resp = fail500 err.message) ∧
    (∀ (db : Database) (idv : Value) (u : Row) (err : SbErr),
      (putDailyLogsPiyush db idv u (some err)).resp = fail500 err.message) ∧
    (∀ (db : Database) (idv : Value) (u : Row) (err : SbErr),
      (putDailyLogsShruti db idv u (some err)).resp = fail500 err.message) ∧
    (∀ (db : Database) (idv : Value) (u : Row) (err : SbErr),
      (putContestLogs db idv u (some err)).resp = fail500 err.message) ∧
    (∀ (db : Database) (idv : Value) (u : Row) (err : SbErr),
      (putBlind75 db idv u (some err)).resp = fail500 err.message) ∧
    (∀ (db : Database) (idv : Value) (u : Row) (err : SbErr),
      (putCourses db idv u (some err)).resp = fail500 err.message) ∧
    (∀ (db : Database) (idv : Value) (u : Row) (err : SbErr),
      (putResumeSections db idv u (some err)).resp = fail500 err.message) ∧
    (∀ (db : Database) (idv : Value) (u : Row) (err : SbErr),
      (putProjects db idv u (some err)).resp = fail500 err.message) ∧
    (∀ (db : Database) (idv : Value) (u : Row) (err : SbErr),
      (putSkills db idv u (some err)).resp = fail500 err.message) ∧
    (∀ (db : Database) (idv : Value) (u : Row) (err : SbErr),
      (putCaseStudies db idv u (some err)).resp = fail500 err.message) ∧
    (∀ (db : Database) (idv : Value) (u : Row) (err : SbErr),
      (putGuesstimates db idv u (some err)).resp = fail500 err.message) ∧
    (∀ (db : Database) (idv : Value) (u : Row) (err : SbErr),
      (putCaseCompetitions db idv u (some err)).resp = fail500 err.message) ∧
    (∀ (db : Database) (idv : Value) (err : SbErr),
      (deleteTodos db idv (some err)).resp = fail500 err.message) ∧
    (∀ (db : Database) (idv : Value) (err : SbErr),
      (deleteDailyLogsPiyush db idv (some err)).resp = fail500 err.message) ∧
    (∀ (db : Database) (idv : Value) (err : SbErr),
      (deleteDailyLogsShruti db idv (some err)).resp = fail500 err.message) ∧
    (∀ (db : Database) (idv : Value) (err : SbErr),
      (deleteContestLogs db idv (some err)).resp = fail500 err.message) ∧
    (∀ (db : Database) (idv : Value) (err : SbErr),
      (deleteBlind75 db idv (some err)).resp = fail500 err.message) ∧
    (∀ (db : Database) (idv : Value) (err : SbErr),
      (deleteCourses db idv (some err)).resp = fail500 err.message) ∧
    (∀ (db : Database) (idv : Value) (err : SbErr),
      (deleteCertificates db idv (some err)).resp = fail500 err.message) ∧
    (∀ (db : Database) (idv : Value) (err : SbErr),
      (deleteProjects db idv (some err)).resp = fail500 err.message) ∧
    (∀ (db : Database) (idv : Value) (err : SbErr),
      (deleteSkills db idv (some err)).resp = fail500 err.message) ∧
    (∀ (db : Database) (idv : Value) (err : SbErr),
      (deleteCaseStudies db idv (some err)).resp = fail500 err.message) ∧
    (∀ (db : Database) (idv : Value) (err : SbErr),
      (deleteGuesstimates db idv (some err)).resp = fail500 err.message) ∧
    (∀ (db : Database) (idv : Value) (err : SbErr),
      (deleteCaseCompetitions db idv (some err)).resp = fail500 err.message) ∧
    (∀ (db : Database) (idv : Value) (e1 : Option SbErr) (err : SbErr),
      (deleteHabits db idv e1 (some err)).resp = fail500 err.message) ∧
    (∀ (db : Database) (date : String) (err : SbErr), ¬ err.code = "PGRST116" →
      (getDailyLogsPiyushByDate db date (some err)).resp = fail500 err.message) ∧
    (∀ (db : Database) (date : String) (err : SbErr), ¬ err.code = "PGRST116" →
      (getDailyLogsShrutiByDate db date (some err)).resp = fail500 err.message) ∧
    (∀ (db : Database) (newId : Value) (now : String) (err : SbErr) (eIns : Option SbErr),
      ¬ err.code = "PGRST116" →
      (getA2zProgress db newId now (some err) eIns).resp = fail500 err.message) ∧
    (∀ (db : Database) (newId : Value) (now : String) (err : SbErr),
      ¬ db.a2z_progress.length = 1 →
      (getA2zProgress db newId now none (some err)).resp = fail500 err.message) ∧
    (∀ (db : Database) (u : Row) (newId : Value) (now : String) (err : SbErr)
        (eUpd : Option SbErr), ¬ db.a2z_progress.length = 1 →
      (putA2zProgress db u newId now none (some err) eUpd).resp = fail500 err.message) ∧
    (∀ (db : Database) (u : Row) (newId : Value) (now : String) (eIns : Option SbErr)
        (err : SbErr) (r : Row), db.a2z_progress = [r] →
      (putA2zProgress db u newId now none eIns (some err)).resp = fail500 err.message) ∧
    (∀ (db : Database) (p : String) (body : Row) (newId : Value) (now : String)
        (e1 e2 e3 : Option SbErr), getField body "rating" = none →
      putCpRatings db p body newId now e1 e2 e3 = ⟨fail400 "Rating is required", db, []⟩) ∧
    (∀ (db : Database) (p : String) (body : Row) (rating newId : Value) (now : String)
        (err : SbErr) (eUpd : Option SbErr), getField body "rating" = some rating →
      matching db.cp_ratings "platform" (.vstr p) = [] →
      (putCpRatings db p body newId now none eUpd (some err)).resp = fail500 err.message) ∧
    (∀ (db : Database) (p : String) (body : Row) (rating newId : Value) (now : String)
        (err : SbErr) (eIns : Option SbErr) (r : Row), getField body "rating" = some rating →
      matching db.cp_ratings "platform" (.vstr p) = [r] →
      (putCpRatings db p body newId now none (some err) eIns).resp = fail500 err.message) ∧
    (∀ (st : StorageState) (baseUrl : String) (body : Row) (t : Nat) (e : Option SbErr),
      (getField body "fileName" = none ∨ getField body "fileBase64" = none ∨
        getField body "profile" = none) →
      uploadCertificate st baseUrl body t e
        = ⟨fail400 "fileName, fileBase64, and profile are required", st, []⟩) ∧
    (∀ (st : StorageState) (baseUrl : String) (body : Row) (t : Nat) (err : SbErr),
      truthyOpt (getField body "fileName") = true →
      truthyOpt (getField body "fileBase64") = true →
      truthyOpt (getField body "profile") = true →
      (uploadCertificate st baseUrl body t (some err)).resp = fail500 err.message) ∧
    (∀ (st : StorageState) (baseUrl : String) (body : Row) (t : Nat) (e : Option SbErr),
      (getField body "fileName" = none ∨ getField body "fileBase64" = none) →
      uploadCaseCompetitionDoc st baseUrl body t e
        = ⟨fail400 "fileName and fileBase64 are required", st, []⟩) ∧
    (∀ (st : StorageState) (baseUrl : String) (body : Row) (t : Nat) (err : SbErr),
      truthyOpt (getField body "fileName") = true →
      truthyOpt (getField body "fileBase64") = true →
      (uploadCaseCompetitionDoc st baseUrl body t (some err)).resp = fail500 err.message) := by
  refine ⟨?_, ?_, ?_, ?_, ?_, ?_, ?_, ?_, ?_, ?_, ?_, ?_, ?_, ?_, ?_, ?_, ?_, ?_, ?_, ?_, ?_, ?_, ?_, ?_, ?_, ?_, ?_, ?_, ?_, ?_, ?_, ?_, ?_, ?_, ?_, ?_, ?_, ?_, ?_, ?_, ?_, ?_, ?_, ?_, ?_, ?_, ?_, ?_, ?_, ?_, ?_, ?_, ?_, ?_, ?_, ?_, ?_, ?_, ?_, ?_, ?_, ?_, ?_, ?_, ?_, ?_, ?_, ?_, ?_, ?_, ?_, ?_, ?_, ?_, ?_, ?_, ?_, ?_, ?_, ?_, ?_, ?_, ?_, ?_, ?_, ?_, ?_, ?_, ?_, ?_, ?_, ?_⟩
  · intro db err
    rfl
  · intro db err
    rfl
  · intro db err
    rfl
  · intro db err
    rfl
  · intro db err
    rfl
  · intro db err
    rfl
  · intro db err
    rfl
  · intro db err
    rfl
  · intro db err
    rfl
  · intro db pq e h
    simp [getTodos, h]
  · intro db pq err h
    simp [getTodos, h, listCall]
  · intro db pq e h
    simp [getHabits, h]
  · intro db pq err h
    simp [getHabits, h, listCall]
  · intro db pq e h
    simp [getCourses, h]
  · intro db pq err h
    simp [getCourses, h, listCall]
  · intro db pq e h
    simp [getCertificates, h]
  · intro db pq err h
    simp [getCertificates, h, listCall]
  · intro db pq e h
    simp [getProjects, h]
  · intro db pq err h
    simp [getProjects, h, listCall]
  · intro db pq e h
    simp [getSkills, h]
  · intro db pq err h
    simp [getSkills, h, listCall]
  · intro db pq f2 t2 e1 e2 h
    simp [getHabitEntries, h]
  · intro db pq f2 t2 err e2 h
    simp [getHabitEntries, h]
  · intro db pq f2 t2 err h h2
    simp [getHabitEntries, h, h2]
  · intro db body newId now e h
    rcases h with h | h <;> simp [postTodos, h, truthyOpt]
  · intro db body newId now err h0 h1
    simp [postTodos, h0, h1, createOne]
  · intro db body newId now e h
    rcases h with h | h <;> simp [postHabits, h, truthyOpt]
  · intro db body newId now err h0 h1
    simp [postHabits, h0, h1, createOne]
  · intro db body newId now e h
    rcases h with h | h <;> simp [postHabitEntries, h, truthyOpt]
  · intro db body newId now err h0 h1
    simp [postHabitEntries, h0, h1, createOne]
  · intro db body newId now e h
    simp [postDailyLogsPiyush, h, truthyOpt]
  · intro db body newId now err h0
    simp [postDailyLogsPiyush, h0, createOne]
  · intro db body newId now e h
    simp [postDailyLogsShruti, h, truthyOpt]
  · intro db body newId now err h0
    simp [postDailyLogsShruti, h0, createOne]
  · intro db body newId now e h
    rcases h with h | h | h <;> simp [postContestLogs, h, truthyOpt]
  · intro db body newId now err h0 h1 h2
    simp [postContestLogs, h0, h1, h2, createOne]
  · intro db body newId now e h
    simp [postBlind75, h, truthyOpt]
  · intro db body newId now err h0
    simp [postBlind75, h0, createOne]
  · intro db body newId now e h
    rcases h with h | h | h <;> simp [postCourses, h, truthyOpt]
  · intro db body newId now err h0 h1 h2
    simp [postCourses, h0, h1, h2, createOne]
  · intro db body newId now e h
    rcases h with h | h | h | h <;> simp [postCertificates, h, truthyOpt]
  · intro db body newId now err h0 h1 h2 h3
    simp [postCertificates, h0, h1, h2, h3, createOne]
  · intro db body newId now e h
    rcases h with h | h <;> simp [postProjects, h, truthyOpt]
  · intro db body newId now err h0 h1
    simp [postProjects, h0, h1, createOne]
  · intro db body newId now e h
    rcases h with h | h <;> simp [postSkills, h, truthyOpt]
  · intro db body newId now err h0 h1
    simp [postSkills, h0, h1, createOne]
  · intro db body newId now e h
    rcases h with h | h <;> simp [postCaseStudies, h, truthyOpt]
  · intro db body newId now err h0 h1
    simp [postCaseStudies, h0, h1, createOne]
  · intro db body newId now e h
    simp [postGuesstimates, h, truthyOpt]
  · intro db body newId now err h0
    simp [postGuesstimates, h0, createOne]
  · intro db body newId now e h
    simp [postCaseCompetitions, h, truthyOpt]
  · intro db body newId now err h0
    simp [postCaseCompetitions, h0, createOne]
  · intro db idv u err
    rfl
  · intro db idv u err
    rfl
  · intro db idv u err
    rfl
  · intro db idv u err
    rfl
  · intro db idv u err
    rfl
  · intro db idv u err
    rfl
  · intro db idv u err
    rfl
  · intro db idv u err
    rfl
  · intro db idv u err
    rfl
  · intro db idv u err
    rfl
  · intro db idv u err
    rfl
  · intro db idv u err
    rfl
  · intro db idv u err
    rfl
  · intro db idv u err
    rfl
  · intro db idv err
    rfl
  · intro db idv err
    rfl
  · intro db idv err
    rfl
  · intro db idv err
    rfl
  · intro db idv err
    rfl
  · intro db idv err
    rfl
  · intro db idv err
    rfl
  · intro db idv err
    rfl
  · intro db idv err
    rfl
  · intro db idv err
    rfl
  · intro db idv err
    rfl
  · intro db idv err
    rfl
  · intro db idv e1 err
    cases e1 <;> rfl
  · intro db date err h
    simp [getDailyLogsPiyushByDate, getSingleByKey, h]
  · intro db date err h
    simp [getDailyLogsShrutiByDate, getSingleByKey, h]
  · intro db newId now err eIns h
    simp [getA2zProgress, h]
  · intro db newId now err h
    rcases hdb : db.a2z_progress with _ | ⟨r1, _ | ⟨r2, rest⟩⟩
    · simp [getA2zProgress, hdb, singleRows, pgrst116, createOne]
    · simp [hdb] at h
    · simp [getA2zProgress, hdb, singleRows, pgrst116, createOne]
  · intro db u newId now err eUpd h
    rcases hdb : db.a2z_progress with _ | ⟨r1, _ | ⟨r2, rest⟩⟩
    · simp [putA2zProgress, hdb, createOne]
    · simp [hdb] at h
    · simp [putA2zProgress, hdb, createOne]
  · intro db u newId now eIns err r h
    simp [putA2zProgress, h, updateByKey]
  · intro db p body newId now e1 e2 e3 h
    simp [putCpRatings, h]
  · intro db p body rating newId now err eUpd h hm
    simp [putCpRatings, h, hm, createOne]
  · intro db p body rating newId now err eIns r h hm
    simp [putCpRatings, h, hm, updateByKey]
  · intro st baseUrl body t e h
    rcases h with h | h | h <;> simp [uploadCertificate, h, truthyOpt]
  · intro st baseUrl body t err h1 h2 h3
    simp [uploadCertificate, h1, h2, h3, uploadObject]
  · intro st baseUrl body t e h
    rcases h with h | h <;> simp [uploadCaseCompetitionDoc, h, truthyOpt]
  · intro st baseUrl body t err h1 h2
    simp [uploadCaseCompetitionDoc, h1, h2, uploadObject]

/-- Concrete instantiation of the error-propagation theorem: one explicit
input per hypothesis-bearing conjunct, exercising each validation failure and
each inspected backend-failure site on concrete states. -/
theorem backend_errors_propagate_witness :
    getTodos {} none none = ⟨fail400 "Profile parameter is required", {}, []⟩ ∧
    (getTodos {} (some "piyush") (some errBoom)).resp = fail500 "boom" ∧
    getHabits {} none none = ⟨fail400 "Profile parameter is required", {}, []⟩ ∧
    (getHabits {} (some "piyush") (some errBoom)).resp = fail500 "boom" ∧
    getCourses {} none none = ⟨fail400 "Profile parameter is required", {}, []⟩ ∧
    (getCourses {} (some "piyush") (some errBoom)).resp = fail500 "boom" ∧
    getCertificates {} none none = ⟨fail400 "Profile parameter is required", {}, []⟩ ∧
    (getCertificates {} (some "piyush") (some errBoom)).resp = fail500 "boom" ∧
    getProjects {} none none = ⟨fail400 "Profile parameter is required", {}, []⟩ ∧
    (getProjects {} (some "piyush") (some errBoom)).resp = fail500 "boom" ∧
    getSkills {} none none = ⟨fail400 "Profile parameter is required", {}, []⟩ ∧
    (getSkills {} (some "piyush") (some errBoom)).resp = fail500 "boom" ∧
    getHabitEntries {} none none none none none = ⟨fail400 "Profile parameter is required", {}, []⟩ ∧
    (getHabitEntries {} (some "piyush") none none (some errBoom) none).resp = fail500 "boom" ∧
    (getHabitEntries dbHabits (some "piyush") none none none (some errBoom)).resp = fail500 "boom" ∧
    postTodos {} [] (.vnum 1) "T0" none = ⟨fail400 "Profile and content are required", {}, []⟩ ∧
    (postTodos {} [("profile", .vstr "a"), ("content", .vstr "x")] (.vnum 1) "T0" (some errBoom)).resp = fail500 "boom" ∧
    postHabits {} [] (.vnum 1) "T0" none = ⟨fail400 "Profile and name are required", {}, []⟩ ∧
    (postHabits {} [("profile", .vstr "a"), ("name", .vstr "gym")] (.vnum 1) "T0" (some errBoom)).resp = fail500 "boom" ∧
    postHabitEntries {} [] (.vnum 1) "T0" none = ⟨fail400 "habit_id and date are required", {}, []⟩ ∧
    (postHabitEntries {} [("habit_id", .vnum 1), ("date", .vstr "2026-01-01")] (.vnum 1) "T0" (some errBoom)).resp = fail500 "boom" ∧
    postDailyLogsPiyush {} [] (.vnum 1) "T0" none = ⟨fail400 "Date is required", {}, []⟩ ∧
    (postDailyLogsPiyush {} [("date", .vstr "2026-01-01")] (.vnum 1) "T0" (some errBoom)).resp = fail500 "boom" ∧
    postDailyLogsShruti {} [] (.vnum 1) "T0" none = ⟨fail400 "Date is required", {}, []⟩ ∧
    (postDailyLogsShruti {} [("date", .vstr "2026-01-01")] (.vnum 1) "T0" (some errBoom)).resp = fail500 "boom" ∧
    postContestLogs {} [] (.vnum 1) "T0" none = ⟨fail400 "Platform, contest_name, and date are required", {}, []⟩ ∧
    (postContestLogs {} [("platform", .vstr "cf"), ("contest_name", .vstr "r1"), ("date", .vstr "2026-01-01")] (.vnum 1) "T0" (some errBoom)).resp = fail500 "boom" ∧
    postBlind75 {} [] (.vnum 1) "T0" none = ⟨fail400 "Question name is required", {}, []⟩ ∧
    (postBlind75 {} [("question_name", .vstr "two-sum")] (.vnum 1) "T0" (some errBoom)).resp = fail500 "boom" ∧
    postCourses {} [] (.vnum 1) "T0" none = ⟨fail400 "Profile, course_name, and platform are required", {}, []⟩ ∧
    (postCourses {} [("profile", .vstr "a"), ("course_name", .vstr "c"), ("platform", .vstr "u")] (.vnum 1) "T0" (some errBoom)).resp = fail500 "boom" ∧
    postCertificates {} [] (.vnum 1) "T0" none = ⟨fail400 "Profile, title, issuer, and date are required", {}, []⟩ ∧
    (postCertificates {} [("profile", .vstr "a"), ("title", .vstr "t"), ("issuer", .vstr "i"), ("date", .vstr "2026-01-01")] (.vnum 1) "T0" (some errBoom)).resp = fail500 "boom" ∧
    postProjects {} [] (.vnum 1) "T0" none = ⟨fail400 "Profile and project_name are required", {}, []⟩ ∧
    (postProjects {} [("profile", .vstr "a"), ("project_name", .vstr "p1")] (.vnum 1) "T0" (some errBoom)).resp = fail500 "boom" ∧
    postSkills {} [] (.vnum 1) "T0" none = ⟨fail400 "Profile and skill_name are required", {}, []⟩ ∧
    (postSkills {} [("profile", .vstr "a"), ("skill_name", .vstr "sql")] (.vnum 1) "T0" (some errBoom)).resp = fail500 "boom" ∧
    postCaseStudies {} [] (.vnum 1) "T0" none = ⟨fail400 "Title and date are required", {}, []⟩ ∧
    (postCaseStudies {} [("title", .vstr "t"), ("date", .vstr "2026-01-01")] (.vnum 1) "T0" (some errBoom)).resp = fail500 "boom" ∧
    postGuesstimates {} [] (.vnum 1) "T0" none = ⟨fail400 "Topic is required", {}, []⟩ ∧
    (postGuesstimates {} [("topic", .vstr "mkts")] (.vnum 1) "T0" (some errBoom)).resp = fail500 "boom" ∧
    postCaseCompetitions {} [] (.vnum 1) "T0" none = ⟨fail400 "Competition name is required", {}, []⟩ ∧
    (postCaseCompetitions {} [("competition_name", .vstr "x")] (.vnum 1) "T0" (some errBoom)).resp = fail500 "boom" ∧
    (getDailyLogsPiyushByDate {} "2026-01-01" (some errBoom)).resp = fail500 "boom" ∧
    (getDailyLogsShrutiByDate {} "2026-01-01" (some errBoom)).resp = fail500 "boom" ∧
    (getA2zProgress {} (.vnum 1) "T0" (some errBoom) none).resp = fail500 "boom" ∧
    (getA2zProgress {} (.vnum 1) "T0" none (some errBoom)).resp = fail500 "boom" ∧
    (putA2zProgress {} [("easy_solved", .vnum 1)] (.vnum 1) "T0" none (some errBoom) none).resp = fail500 "boom" ∧
    (putA2zProgress dbAll [("easy_solved", .vnum 1)] (.vnum 1) "T0" none none (some errBoom)).resp = fail500 "boom" ∧
    putCpRatings {} "codeforces" [] (.vnum 1) "T0" none none none = ⟨fail400 "Rating is required", {}, []⟩ ∧
    (putCpRatings {} "codeforces" [("rating", .vnum 1500)] (.vnum 1) "T0" none none (some errBoom)).resp = fail500 "boom" ∧
    (putCpRatings dbCp "codeforces" [("rating", .vnum 1500)] (.vnum 1) "T0" none (some errBoom) none).resp = fail500 "boom" ∧
    uploadCertificate {} "https://x" [] 5 none = ⟨fail400 "fileName, fileBase64, and profile are required", {}, []⟩ ∧
    (uploadCertificate {} "https://x" [("fileName", .vstr "a.pdf"), ("fileBase64", .vstr "QQ=="), ("profile", .vstr "p")] 5 (some errBoom)).resp = fail500 "boom" ∧
    uploadCaseCompetitionDoc {} "https://x" [] 5 none = ⟨fail400 "fileName and fileBase64 are required", {}, []⟩ ∧
    (uploadCaseCompetitionDoc {} "https://x" [("fileName", .vstr "a.pdf"), ("fileBase64", .vstr "QQ==")] 5 (some errBoom)).resp = fail500 "boom" := by
  obtain ⟨c0, c1, c2, c3, c4, c5, c6, c7, c8, c9, c10, c11, c12, c13, c14, c15, c16, c17, c18, c19, c20, c21, c22, c23, c24, c25, c26, c27, c28, c29, c30, c31, c32, c33, c34, c35, c36, c37, c38, c39, c40, c41, c42, c43, c44, c45, c46, c47, c48, c49, c50, c51, c52, c53, c54, c55, c56, c57, c58, c59, c60, c61, c62, c63, c64, c65, c66, c67, c68, c69, c70, c71, c72, c73, c74, c75, c76, c77, c78, c79, c80, c81, c82, c83, c84, c85, c86, c87, c88, c89, c90, c91⟩ := backend_errors_propagate
  exact ⟨c9 {} none none (by decide),
    c10 {} (some "piyush") errBoom (by decide),
    c11 {} none none (by decide),
    c12 {} (some "piyush") errBoom (by decide),
    c13 {} none none (by decide),
    c14 {} (some "piyush") errBoom (by decide),
    c15 {} none none (by decide),
    c16 {} (some "piyush") errBoom (by decide),
    c17 {} none none (by decide),
    c18 {} (some "piyush") errBoom (by decide),
    c19 {} none none (by decide),
    c20 {} (some "piyush") errBoom (by decide),
    c21 {} none none none none none (by decide),
    c22 {} (some "piyush") none none errBoom none (by decide),
    c23 dbHabits (some "piyush") none none errBoom (by decide) (by decide),
    c24 {} [] (.vnum 1) "T0" none (Or.inl (by decide)),
    c25 {} [("profile", .vstr "a"), ("content", .vstr "x")] (.vnum 1) "T0" errBoom (by decide) (by decide),
    c26 {} [] (.vnum 1) "T0" none (Or.inl (by decide)),
    c27 {} [("profile", .vstr "a"), ("name", .vstr "gym")] (.vnum 1) "T0" errBoom (by decide) (by decide),
    c28 {} [] (.vnum 1) "T0" none (Or.inl (by decide)),
    c29 {} [("habit_id", .vnum 1), ("date", .vstr "2026-01-01")] (.vnum 1) "T0" errBoom (by decide) (by decide),
    c30 {} [] (.vnum 1) "T0" none (by decide),
    c31 {} [("date", .vstr "2026-01-01")] (.vnum 1) "T0" errBoom (by decide),
    c32 {} [] (.vnum 1) "T0" none (by decide),
    c33 {} [("date", .vstr "2026-01-01")] (.vnum 1) "T0" errBoom (by decide),
    c34 {} [] (.vnum 1) "T0" none (Or.inl (by decide)),
    c35 {} [("platform", .vstr "cf"), ("contest_name", .vstr "r1"), ("date", .vstr "2026-01-01")] (.vnum 1) "T0" errBoom (by decide) (by decide) (by decide),
    c36 {} [] (.vnum 1) "T0" none (by decide),
    c37 {} [("question_name", .vstr "two-sum")] (.vnum 1) "T0" errBoom (by decide),
    c38 {} [] (.vnum 1) "T0" none (Or.inl (by decide)),
    c39 {} [("profile", .vstr "a"), ("course_name", .vstr "c"), ("platform", .vstr "u")] (.vnum 1) "T0" errBoom (by decide) (by decide) (by decide),
    c40 {} [] (.vnum 1) "T0" none (Or.inl (by decide)),
    c41 {} [("profile", .vstr "a"), ("title", .vstr "t"), ("issuer", .vstr "i"), ("date", .vstr "2026-01-01")] (.vnum 1) "T0" errBoom (by decide) (by decide) (by decide) (by decide),
    c42 {} [] (.vnum 1) "T0" none (Or.inl (by decide)),
    c43 {} [("profile", .vstr "a"), ("project_name", .vstr "p1")] (.vnum 1) "T0" errBoom (by decide) (by decide),
    c44 {} [] (.vnum 1) "T0" none (Or.inl (by decide)),
    c45 {} [("profile", .vstr "a"), ("skill_name", .vstr "sql")] (.vnum 1) "T0" errBoom (by decide) (by decide),
    c46 {} [] (.vnum 1) "T0" none (Or.inl (by decide)),
    c47 {} [("title", .vstr "t"), ("date", .vstr "2026-01-01")] (.vnum 1) "T0" errBoom (by decide) (by decide),
    c48 {} [] (.vnum 1) "T0" none (by decide),
    c49 {} [("topic", .vstr "mkts")] (.vnum 1) "T0" errBoom (by decide),
    c50 {} [] (.vnum 1) "T0" none (by decide),
    c51 {} [("competition_name", .vstr "x")] (.vnum 1) "T0" errBoom (by decide),
    c79 {} "2026-01-01" errBoom (by decide),
    c80 {} "2026-01-01" errBoom (by decide),
    c81 {} (.vnum 1) "T0" errBoom none (by decide),
    c82 {} (.vnum 1) "T0" errBoom (by decide),
    c83 {} [("easy_solved", .vnum 1)] (.vnum 1) "T0" errBoom none (by decide),
    c84 dbAll [("easy_solved", .vnum 1)] (.vnum 1) "T0" none errBoom todoRow1 (by decide),
    c85 {} "codeforces" [] (.vnum 1) "T0" none none none (by decide),
    c86 {} "codeforces" [("rating", .vnum 1500)] (.vnum 1500) (.vnum 1) "T0" errBoom none (by decide) (by decide),
    c87 dbCp "codeforces" [("rating", .vnum 1500)] (.vnum 1500) (.vnum 1) "T0" errBoom none cpRow1 (by decide) (by decide),
    c88 {} "https://x" [] 5 none (Or.inl (by decide)),
    c89 {} "https://x" [("fileName", .vstr "a.pdf"), ("fileBase64", .vstr "QQ=="), ("profile", .vstr "p")] 5 errBoom (by decide) (by decide) (by decide),
    c90 {} "https://x" [] 5 none (Or.inl (by decide)),
    c91 {} "https://x" [("fileName", .vstr "a.pdf"), ("fileBase64", .vstr "QQ==")] 5 errBoom (by decide) (by decide)⟩


end Tracker
